import Mathlib

/-!
Verification of the proton-mail-export CLI orchestration layer
(`src/cli/bin/main.cpp`).

The CLI is an interactive, effectful program.  We embed it shallowly as a
clock-threaded interpreter over an abstract environment `Env` that supplies,
per clock tick, the value of the cancellation flag (`gShouldQuit`), the
line read from standard input (`none` encodes end-of-file, which the
Ctrl+C handler forces by closing stdin), and the outcome of each Session
Facade call.  A `Trace` records the observable behaviour: prompts printed,
diagnostic messages, Session Facade calls with their arguments, and
directories created.

All definitions are translated from `src/cli/bin/main.cpp`; each carries a
reference to the function it embeds.  The one exception (`newRestoreOk`)
models library-side behaviour that is not under `src/` and is documented
as such.
-/

namespace PME

/-- C `EXIT_SUCCESS`. -/
def EXIT_SUCCESS : Nat := 0

/-- C `EXIT_FAILURE`. -/
def EXIT_FAILURE : Nat := 1

/-- main.cpp line 50: `constexpr int kNumInputRetries = 3;`. -/
def kNumInputRetries : Nat := 3

/-- main.cpp line 383: `constexpr int kMaxNumLoginAttempts = 3;`. -/
def kMaxNumLoginAttempts : Nat := 3

/-- main.cpp lines 55-57: `toMB(value) = value / 1024 / 1024` on uint64. -/
def toMB (value : Nat) : Nat := value / 1024 / 1024

/-- etcpp::Session::LoginState (etsession.hpp line 56) is a C++ enum class;
`unknown code` stands for an out-of-range underlying value that the native
library could hand back (the `default:` case of performLogin's switch). -/
inductive LoginState where
  | LoggedOut
  | AwaitingTOTP
  | AwaitingHV
  | AwaitingMailboxPassword
  | LoggedIn
  | unknown (code : Nat)
deriving DecidableEq, Repr

/-- The exception kinds that reach main's catch chain (main.cpp 731-746):
CancelledException, ReadInputException, SessionException (as a
std::exception), KillSwitchException, any other std::exception. -/
inductive Exn where
  | cancelled
  | readInput
  | sessionErr
  | killSwitch
  | unexpected
deriving DecidableEq, Repr

/-- Outcome of one Session Facade call (or of a runTask around it):
a returned LoginState, a thrown SessionException, or a thrown
CancelledException. -/
inductive SessOut where
  | ok (s : LoginState)
  | err
  | cancel
deriving DecidableEq, Repr

/-- A Session Facade call together with its arguments, as recorded in the
trace (etsession.hpp: login, loginTOTP, loginMailboxPassword, markHVSolved). -/
inductive SessionCall where
  | login (user pass : String)
  | loginTOTP (code : String)
  | loginMailboxPassword (pass : String)
  | markHVSolved
deriving DecidableEq, Repr

/-- std::filesystem::path, abstracted to an absolute flag plus components.
`Path.join` follows `operator/`: appending an absolute path replaces the
left operand. -/
structure Path where
  abs : Bool
  comps : List String
deriving DecidableEq, Repr

/-- The empty path (C++ default-constructed `std::filesystem::path`). -/
def Path.emptyP : Path := ⟨false, []⟩

/-- C++ `p / q`: if `q` is absolute the result is `q`. -/
def Path.join (p q : Path) : Path := if q.abs then q else ⟨p.abs, p.comps ++ q.comps⟩

/-- C++ `p.is_relative()`. -/
def Path.isRelative (p : Path) : Bool := !p.abs

/-- main.cpp lines 320-322: a relative backup path is resolved against the
platform output directory. -/
def resolveAgainst (out p : Path) : Path := if p.isRelative then Path.join out p else p

/-- Observable console messages the claims refer to (stderr diagnostics and
the informational stdout texts of main.cpp). -/
inductive Msg where
  | valueEmpty
  | invalidValue
  | pathNotDirPrompt
  | loginFailed
  | totpFailed
  | mboxFailed
  | maxAttempts
  | unexpectedState (code : Nat)
  | defaultPathShown (p : Path)
  | createDirFailed (p : Path)
  | spaceWarning (needMB haveMB : Nat)
  | exportStarted (p : Path)
  | exportFinished
  | restoreStarted (p : Path)
  | restoreFinished
  | createTaskFailed
  | accessFailed
  | pathNotExists
  | pathNotDir
deriving DecidableEq, Repr

/-- The observable trace of a run: the interaction clock, the prompts
printed (with the tick at which each was issued), diagnostic messages,
Session Facade calls, and directories created by create_directories. -/
structure Trace where
  tick : Nat
  prompts : List (Nat × String)
  msgs : List Msg
  calls : List (Nat × SessionCall)
  dirsCreated : List Path
deriving DecidableEq, Repr

/-- The empty trace at process start. -/
def Trace.init : Trace := ⟨0, [], [], [], []⟩

/-- Advance the interaction clock by one observation. -/
def tickAdv (tr : Trace) : Trace := { tr with tick := tr.tick + 1 }

/-- Record a console message. -/
def pushMsg (tr : Trace) (m : Msg) : Trace := { tr with msgs := tr.msgs ++ [m] }

/-- Outcome of running a backup/restore task body under the Task Runner. -/
inductive RunOut where
  | ok
  | err
  | cancel
deriving DecidableEq, Repr

/-- The abstract environment of one process run: the cancellation flag and
the stdin stream as functions of the clock, the Session Facade's responses,
the parsed command line and process environment, and the filesystem. -/
structure Env where
  quit : Nat → Bool
  read : Nat → Option String
  sess : Nat → SessOut
  hvUrl : String
  argUser : Option String
  argPassword : Option String
  argTotp : Option String
  argMbox : Option String
  argDir : Option String
  envUser : Option String
  envPassword : Option String
  envTotp : Option String
  envMbox : Option String
  envDir : Option String
  email : String
  outputPath : Path
  expand : Path → Path
  parsePath : String → Path
  createOk : Nat → Path → Bool
  fsExists : Path → Bool
  fsIsDir : Path → Bool
  spaceAvail : Option Nat
  expectedUsage : Option Nat
  newBackupOk : Bool
  runBackup : RunOut
  runRestore : RunOut

/-- Result of a fallible sub-computation: a value or a thrown exception. -/
inductive Outcome (α : Type) where
  | ok (a : α)
  | exn (e : Exn)
deriving DecidableEq, Repr

/-- main.cpp lines 64-85 (`readLine`, non-Win32 branch): print the label as
a prompt, read a line; on end-of-file throw CancelledException when
gShouldQuit is set (the interrupt handler closed stdin) and otherwise
ReadInputException. -/
def readLineT (env : Env) (label : String) (tr : Trace) : Outcome String × Trace :=
  let tr1 : Trace := { tr with tick := tr.tick + 1, prompts := tr.prompts ++ [(tr.tick, label)] }
  match env.read tr.tick with
  | some s => (Outcome.ok s, tr1)
  | none =>
    if env.quit tr.tick then (Outcome.exn Exn.cancelled, tr1)
    else (Outcome.exn Exn.readInput, tr1)

/-- The retry loop shared by readText (main.cpp 87-99) and readSecret
(main.cpp 150-173): up to `n` reads, re-prompting on empty input, and a
ReadInputException once the retries are exhausted. -/
def readTextLoop (env : Env) (label : String) : Nat → Trace → Outcome String × Trace
  | 0, tr => (Outcome.exn Exn.readInput, tr)
  | n + 1, tr =>
    match readLineT env label tr with
    | (Outcome.ok s, tr1) =>
      if s.isEmpty then readTextLoop env label n (pushMsg tr1 Msg.valueEmpty)
      else (Outcome.ok s, tr1)
    | (Outcome.exn e, tr1) => (Outcome.exn e, tr1)

/-- main.cpp lines 87-99: `readText`. -/
def readText (env : Env) (label : String) (tr : Trace) : Outcome String × Trace :=
  readTextLoop env label kNumInputRetries tr

/-- main.cpp lines 150-173: `readSecret`; apart from disabling echo its
control flow is identical to readText. -/
def readSecret (env : Env) (label : String) (tr : Trace) : Outcome String × Trace :=
  readTextLoop env label kNumInputRetries tr

/-- Byte-wise std::tolower as applied in main.cpp lines 184 and 207,
realised as a character-wise map over the string's characters. -/
def lowerStr (s : String) : String := String.mk (s.data.map Char.toLower)

/-- The retry loop of readYesNo (main.cpp 175-196): empty input and tokens
outside {y, yes, n, no} (case-insensitively) are invalid and re-prompt. -/
def readYesNoLoop (env : Env) (label : String) : Nat → Trace → Outcome Bool × Trace
  | 0, tr => (Outcome.exn Exn.readInput, tr)
  | n + 1, tr =>
    match readLineT env label tr with
    | (Outcome.ok s, tr1) =>
      if s.isEmpty then readYesNoLoop env label n (pushMsg tr1 Msg.valueEmpty)
      else
        let l := lowerStr s
        if l = "y" ∨ l = "yes" then (Outcome.ok true, tr1)
        else if l = "n" ∨ l = "no" then (Outcome.ok false, tr1)
        else readYesNoLoop env label n (pushMsg tr1 Msg.invalidValue)
    | (Outcome.exn e, tr1) => (Outcome.exn e, tr1)

/-- main.cpp lines 175-196: `readYesNo`. -/
def readYesNo (env : Env) (label : String) (tr : Trace) : Outcome Bool × Trace :=
  readYesNoLoop env label kNumInputRetries tr

/-- operation.h is not under src/; the token constants are evidenced by
main.cpp line 216's usage message ("b, B, Backup, backup, R, r, Restore,
restore"). -/
def backupStr : String := "backup"

/-- See `backupStr`. -/
def restoreStr : String := "restore"

/-- The retry loop of readOperation (main.cpp 198-220). -/
def readOperationLoop (env : Env) (label : String) : Nat → Trace → Outcome String × Trace
  | 0, tr => (Outcome.exn Exn.readInput, tr)
  | n + 1, tr =>
    match readLineT env label tr with
    | (Outcome.ok s, tr1) =>
      if s.isEmpty then readOperationLoop env label n (pushMsg tr1 Msg.valueEmpty)
      else
        let l := lowerStr s
        if l = "b" ∨ l = backupStr then (Outcome.ok "backup", tr1)
        else if l = "r" ∨ l = restoreStr then (Outcome.ok "restore", tr1)
        else readOperationLoop env label n (pushMsg tr1 Msg.invalidValue)
    | (Outcome.exn e, tr1) => (Outcome.exn e, tr1)

/-- main.cpp lines 198-220: `readOperation`. -/
def readOperation (env : Env) (label : String) (tr : Trace) : Outcome String × Trace :=
  readOperationLoop env label kNumInputRetries tr

/-- The retry loop of readPath (main.cpp 110-148): empty input re-prompts;
a path that exists but is not a directory re-prompts; otherwise the
expanded path is returned.  (The filesystem queries are modelled as total,
so the catch branch of the existence check is unreachable here.) -/
def readPathLoop (env : Env) (label : String) : Nat → Trace → Outcome Path × Trace
  | 0, tr => (Outcome.exn Exn.readInput, tr)
  | n + 1, tr =>
    match readLineT env label tr with
    | (Outcome.ok s, tr1) =>
      if s.isEmpty then readPathLoop env label n (pushMsg tr1 Msg.valueEmpty)
      else
        let p := env.expand (env.parsePath s)
        if env.fsExists p && !env.fsIsDir p then
          readPathLoop env label n (pushMsg tr1 Msg.pathNotDirPrompt)
        else (Outcome.ok p, tr1)
    | (Outcome.exn e, tr1) => (Outcome.exn e, tr1)

/-- main.cpp lines 110-148: `readPath`. -/
def readPath (env : Env) (label : String) (tr : Trace) : Outcome Path × Trace :=
  readPathLoop env label kNumInputRetries tr

/-- main.cpp lines 222-226: `waitForEnter` prints the label, reads a line
and ignores the result entirely (end-of-file included). -/
def waitForEnter (env : Env) (label : String) (tr : Trace) : Trace :=
  { tr with tick := tr.tick + 1, prompts := tr.prompts ++ [(tr.tick, label)] }

/-- main.cpp lines 228-248: `getCLIValue`; a present, non-empty command-line
argument wins, otherwise a set, non-empty environment variable, otherwise
the interactive fallback. -/
def getCLIValue (arg envv : Option String) (fallback : Trace → Outcome String × Trace)
    (tr : Trace) : Outcome String × Trace :=
  let result := arg.getD ""
  if !result.isEmpty then (Outcome.ok result, tr)
  else
    match envv with
    | some e => if !e.isEmpty then (Outcome.ok e, tr) else fallback tr
    | none => fallback tr

/-- One Session Facade invocation: records the call and its arguments at
the current tick and yields the environment's response. -/
def sessCallT (env : Env) (c : SessionCall) (tr : Trace) : SessOut × Trace :=
  (env.sess tr.tick, { tr with tick := tr.tick + 1, calls := tr.calls ++ [(tr.tick, c)] })

/-- The mutable state of performLogin's loop (main.cpp 380-397): the current
LoginState, numLoginAttempts, and the saved loginUsername/loginPassword. -/
structure LoginSt where
  state : LoginState
  attempts : Nat
  username : String
  password : String
deriving DecidableEq, Repr

/-- Result of performLogin: an explicit exit code (`std::optional<int>`
holding a value), `done` for nullopt (logged in), a propagated exception,
or exhaustion of the interpreter's fuel. -/
inductive LoginResult where
  | exit (code : Nat)
  | done
  | raised (e : Exn)
  | fuelOut
deriving DecidableEq, Repr

/-- Result of one iteration body of performLogin's while loop: either the
function returns/throws, or the loop continues with a new state.  `caught`
records whether a SessionException was caught during the iteration. -/
inductive StepRes where
  | ret (r : LoginResult) (tr : Trace)
  | cont (st : LoginSt) (tr : Trace) (caught : Bool)
deriving DecidableEq, Repr

/-- The trace carried by a step result. -/
def StepRes.trace : StepRes → Trace
  | .ret _ tr => tr
  | .cont _ tr _ => tr

/-- The switch statement of performLogin (main.cpp 399-508), one loop
iteration after the loop-head quit and retry-bound checks.  Each branch
follows the source: obtain the input via getCLIValue, check gShouldQuit,
run the step, and on a caught SessionException increment the retry counter
and continue; on success reset it to 0 — except that in AwaitingHV a step
that leaves the state at AwaitingHV increments the counter (lines 469-472).
In AwaitingHV the display of getHVSolveURL's challenge URL (lines 446-452)
is pure output with no observable the claims mention, so only the
waitForEnter prompt that follows it is recorded.  The `default:` case
(lines 501-507) reports the unexpected state and returns EXIT_FAILURE. -/
def loginStep (env : Env) (st : LoginSt) (tr : Trace) : StepRes :=
  match st.state with
  | .LoggedOut =>
    match getCLIValue env.argUser env.envUser (readText env "Username") tr with
    | (.exn e, tr1) => .ret (.raised e) tr1
    | (.ok username, tr1) =>
      if env.quit tr1.tick then .ret (.exit EXIT_SUCCESS) (tickAdv tr1)
      else
        match getCLIValue env.argPassword env.envPassword (readSecret env "Password") (tickAdv tr1) with
        | (.exn e, tr2) => .ret (.raised e) tr2
        | (.ok password, tr2) =>
          match sessCallT env (.login username password) tr2 with
          | (.ok s, tr3) => .cont ⟨s, 0, username, password⟩ tr3 false
          | (.err, tr3) => .cont { st with attempts := st.attempts + 1 } (pushMsg tr3 Msg.loginFailed) true
          | (.cancel, tr3) => .ret (.raised .cancelled) tr3
  | .AwaitingTOTP =>
    match getCLIValue env.argTotp env.envTotp
        (readSecret env "Enter the code from your authenticator app") tr with
    | (.exn e, tr1) => .ret (.raised e) tr1
    | (.ok totp, tr1) =>
      if env.quit tr1.tick then .ret (.exit EXIT_SUCCESS) (tickAdv tr1)
      else
        match sessCallT env (.loginTOTP totp) (tickAdv tr1) with
        | (.ok s, tr2) => .cont { st with state := s, attempts := 0 } tr2 false
        | (.err, tr2) => .cont { st with attempts := st.attempts + 1 } (pushMsg tr2 Msg.totpFailed) true
        | (.cancel, tr2) => .ret (.raised .cancelled) tr2
  | .AwaitingHV =>
    let tr1 := waitForEnter env "Press ENTER to continue" tr
    if env.quit tr1.tick then .ret (.exit EXIT_SUCCESS) (tickAdv tr1)
    else
      match sessCallT env .markHVSolved (tickAdv tr1) with
      | (.err, tr2) => .cont { st with attempts := st.attempts + 1 } (pushMsg tr2 Msg.loginFailed) true
      | (.cancel, tr2) => .ret (.raised .cancelled) tr2
      | (.ok s, tr2) =>
        if s = .LoggedOut then
          match sessCallT env (.login st.username st.password) tr2 with
          | (.err, tr3) => .cont { st with attempts := st.attempts + 1 } (pushMsg tr3 Msg.loginFailed) true
          | (.cancel, tr3) => .ret (.raised .cancelled) tr3
          | (.ok s2, tr3) =>
            if s2 = .AwaitingHV then .cont { st with state := s2, attempts := st.attempts + 1 } tr3 false
            else .cont { st with state := s2, attempts := 0 } tr3 false
        else if s = .AwaitingHV then .cont { st with state := s, attempts := st.attempts + 1 } tr2 false
        else .cont { st with state := s, attempts := 0 } tr2 false
  | .AwaitingMailboxPassword =>
    match getCLIValue env.argMbox env.envMbox (readSecret env "Mailbox Password") tr with
    | (.exn e, tr1) => .ret (.raised e) tr1
    | (.ok mbox, tr1) =>
      if env.quit tr1.tick then .ret (.exit EXIT_SUCCESS) (tickAdv tr1)
      else
        match sessCallT env (.loginMailboxPassword mbox) (tickAdv tr1) with
        | (.ok s, tr2) => .cont { st with state := s, attempts := 0 } tr2 false
        | (.err, tr2) => .cont { st with attempts := st.attempts + 1 } (pushMsg tr2 Msg.mboxFailed) true
        | (.cancel, tr2) => .ret (.raised .cancelled) tr2
  | .LoggedIn => .ret .done tr
  | .unknown c => .ret (.exit EXIT_FAILURE) (pushMsg tr (Msg.unexpectedState c))

/-- The while loop of performLogin (main.cpp 389-509): while the state is
not LoggedIn, first check gShouldQuit (return EXIT_SUCCESS), then the retry
bound (return EXIT_FAILURE with the max-attempts diagnostic), then run one
switch iteration.  The list accumulates the LoginState visited at each loop
body entry; `fuel` bounds the interpretation. -/
def performLoginLoop (env : Env) :
    Nat → LoginSt → Trace → List LoginState → LoginResult × Trace × List LoginState
  | 0, _, tr, vis => (.fuelOut, tr, vis)
  | fuel + 1, st, tr, vis =>
    if st.state = .LoggedIn then (.done, tr, vis)
    else
      let vis1 := vis ++ [st.state]
      if env.quit tr.tick then (.exit EXIT_SUCCESS, tickAdv tr, vis1)
      else if kMaxNumLoginAttempts ≤ st.attempts then
        (.exit EXIT_FAILURE, pushMsg (tickAdv tr) Msg.maxAttempts, vis1)
      else
        match loginStep env st (tickAdv tr) with
        | .ret r tr1 => (r, tr1, vis1)
        | .cont st1 tr1 _ => performLoginLoop env fuel st1 tr1 vis1

/-- main.cpp lines 380-511: `performLogin`, starting LoggedOut with zero
attempts and empty saved credentials. -/
def performLogin (env : Env) (fuel : Nat) (tr : Trace) :
    LoginResult × Trace × List LoginState :=
  performLoginLoop env fuel ⟨.LoggedOut, 0, "", ""⟩ tr []

/-- The exit code main's catch chain (main.cpp 731-746) assigns to an
exception escaping the orchestrators: CancelledException maps to
EXIT_SUCCESS, everything else to EXIT_FAILURE. -/
def mainExnExit : Exn → Nat
  | .cancelled => EXIT_SUCCESS
  | _ => EXIT_FAILURE

/-- Whether a LoginState is one of the five declared enumerators. -/
def knownState : LoginState → Bool
  | .unknown _ => false
  | _ => true

/-- Result of getBackupPath (main.cpp 288-335): a resolved, created path
with the outPathCameFromArg and usingDefaultBackupPath flags, the empty
path returned when directory creation fails for a flag-supplied path, a
propagated exception, or fuel exhaustion of the while(true) loop. -/
inductive BPRes where
  | ok (p : Path) (fromArg : Bool) (usedDefault : Bool) (tr : Trace)
  | fail (tr : Trace)
  | raised (e : Exn) (tr : Trace)
  | fuelOut (tr : Trace)
deriving DecidableEq, Repr

/-- The trace carried by a getBackupPath result. -/
def BPRes.trace : BPRes → Trace
  | .ok _ _ _ tr => tr
  | .fail tr => tr
  | .raised _ tr => tr
  | .fuelOut tr => tr

/-- main.cpp lines 320-332: resolve a relative path against the output
directory, then attempt `std::filesystem::create_directories`.  `Sum.inl`
is success (the created path is recorded in the trace), `Sum.inr` the
caught exception (logged); both carry the resolved path, which the C++
loop keeps in `backupPath`. -/
def tryCreate (env : Env) (bp : Path) (tr : Trace) : (Path × Trace) ⊕ (Path × Trace) :=
  let q := resolveAgainst env.outputPath bp
  if env.createOk tr.tick q then
    Sum.inl (q, { tr with tick := tr.tick + 1, dirsCreated := tr.dirsCreated ++ [q] })
  else
    Sum.inr (q, pushMsg { tr with tick := tr.tick + 1 } (Msg.createDirFailed q))

/-- The while(true) loop of getBackupPath (main.cpp 311-334): when
promptEntry is set, ask for a path; otherwise, when the path is still
empty, fall back to the output directory; resolve, then create.  On
creation failure a flag-supplied path is fatal (the function returns the
empty path), any other origin loops. -/
def backupPathLoop (env : Env) :
    Nat → Bool → Bool → Bool → Path → Trace → BPRes
  | 0, _, _, _, _, tr => .fuelOut tr
  | fuel + 1, promptEntry, fromArg, usedDefault, bp, tr =>
    if promptEntry then
      match readPath env "Export Path" tr with
      | (.exn e, tr1) => .raised e tr1
      | (.ok p, tr1) =>
        match tryCreate env p tr1 with
        | .inl (q, tr2) => .ok q fromArg false tr2
        | .inr (q, tr2) =>
          if fromArg then .fail tr2
          else backupPathLoop env fuel promptEntry fromArg false q tr2
    else
      let p := if bp = Path.emptyP then env.outputPath else bp
      match tryCreate env p tr with
      | .inl (q, tr2) => .ok q fromArg usedDefault tr2
      | .inr (q, tr2) =>
        if fromArg then .fail tr2
        else backupPathLoop env fuel promptEntry fromArg usedDefault q tr2

/-- main.cpp lines 288-335: `getBackupPath`.  A present --dir flag sets
outPathCameFromArg (even when its value is empty) and a non-empty value is
expanded; when no path resulted, the default `<output-dir>/<email>` is
displayed and the user is asked to confirm it (declining switches to
interactive path entry). -/
def getBackupPath (env : Env) (fuel : Nat) (tr : Trace) : BPRes :=
  let (bp, fromArg) :=
    match env.argDir with
    | some a => (if a.isEmpty then Path.emptyP else env.expand (env.parsePath a), true)
    | none => (Path.emptyP, false)
  if bp = Path.emptyP then
    let tr1 := pushMsg tr (Msg.defaultPathShown (Path.join env.outputPath ⟨false, [env.email]⟩))
    match readYesNo env "Do you wish to proceed?" tr1 with
    | (.exn e, tr2) => .raised e tr2
    | (.ok b, tr2) => backupPathLoop env fuel (!b) fromArg true bp tr2
  else backupPathLoop env fuel false fromArg true bp tr

/-- Result of performBackup / performRestore: an exit code, a propagated
exception, or fuel exhaustion. -/
inductive OpResult where
  | exit (code : Nat)
  | raised (e : Exn)
  | fuelOut
deriving DecidableEq, Repr

/-- main.cpp lines 562-571: announce the export and run the backup task
under the Task Runner; a BackupException is fatal (EXIT_FAILURE), success
prints "Export Finished" and returns EXIT_SUCCESS, anything else (such as
a cancellation) propagates. -/
def runBackupPart (env : Env) (tr : Trace) (bp : Path) : OpResult × Trace :=
  let tr1 := pushMsg tr (Msg.exportStarted bp)
  match env.runBackup with
  | .ok => (OpResult.exit EXIT_SUCCESS, pushMsg tr1 Msg.exportFinished)
  | .err => (OpResult.exit EXIT_FAILURE, tr1)
  | .cancel => (OpResult.raised Exn.cancelled, tr1)

/-- main.cpp lines 514-572: `performBackup`.  An empty path from
getBackupPath is EXIT_FAILURE; then the free-space query, the BackupTask
construction and the expected-disk-usage query can each fail fatally; when
the expectation exceeds the available space both figures are shown in MB
and the user must confirm, declining being a clean EXIT_SUCCESS. -/
def performBackup (env : Env) (fuel : Nat) (tr : Trace) : OpResult × Trace :=
  match getBackupPath env fuel tr with
  | .raised e tr1 => (OpResult.raised e, tr1)
  | .fuelOut tr1 => (OpResult.fuelOut, tr1)
  | .fail tr1 => (OpResult.exit EXIT_FAILURE, tr1)
  | .ok bp _ _ tr1 =>
    match env.spaceAvail with
    | none => (OpResult.exit EXIT_FAILURE, tr1)
    | some avail =>
      if !env.newBackupOk then (OpResult.exit EXIT_FAILURE, pushMsg tr1 Msg.createTaskFailed)
      else
        match env.expectedUsage with
        | none => (OpResult.exit EXIT_FAILURE, tr1)
        | some expected =>
          if avail < expected then
            match readYesNo env "Do you wish to proceed?"
                (pushMsg tr1 (Msg.spaceWarning (toMB expected) (toMB avail))) with
            | (.exn e, tr2) => (OpResult.raised e, tr2)
            | (.ok false, tr2) => (OpResult.exit EXIT_SUCCESS, tr2)
            | (.ok true, tr2) => runBackupPart env tr2 bp
          else runBackupPart env tr1 bp

/-- Result of getRestorePath (main.cpp 337-378). -/
inductive RPRes where
  | ok (p : Path) (fromArgOrEnv : Bool) (tr : Trace)
  | raised (e : Exn) (tr : Trace)
  | fuelOut (tr : Trace)
deriving DecidableEq, Repr

/-- The trace carried by a getRestorePath result. -/
def RPRes.trace : RPRes → Trace
  | .ok _ _ tr => tr
  | .raised _ tr => tr
  | .fuelOut tr => tr

/-- main.cpp lines 340-350: the restore source string, with precedence
--dir flag (non-empty) over the ET_DIR environment variable (set and
non-empty); `none` means neither was given. -/
def getRestorePathArg (env : Env) : Option String :=
  let a := env.argDir.getD ""
  if !a.isEmpty then some a
  else
    match env.envDir with
    | some e => if !e.isEmpty then some e else none
    | none => none

/-- The while(true) loop of getRestorePath (main.cpp 358-377): prompt for
a path, resolve a relative one against the output directory, and re-prompt
when it does not exist or is not a directory. -/
def restorePathLoop (env : Env) : Nat → Trace → RPRes
  | 0, tr => .fuelOut tr
  | fuel + 1, tr =>
    match readPath env "Backup Path" tr with
    | (.exn e, tr1) => .raised e tr1
    | (.ok p, tr1) =>
      let q := resolveAgainst env.outputPath p
      if !env.fsExists q then restorePathLoop env fuel (pushMsg tr1 Msg.pathNotExists)
      else if !env.fsIsDir q then restorePathLoop env fuel (pushMsg tr1 Msg.pathNotDir)
      else .ok q false tr1

/-- main.cpp lines 337-378: `getRestorePath`.  A flag- or
environment-supplied path is expanded and returned without any validation;
only interactively entered paths are validated (and re-prompted). -/
def getRestorePath (env : Env) (fuel : Nat) (tr : Trace) : RPRes :=
  match getRestorePathArg env with
  | some a => .ok (env.expand (env.parsePath a)) true tr
  | none => restorePathLoop env fuel tr

/-- Modelled from the spec: `Session::newRestore` lives in the native
library, which is not under src/; per spec sections 4.5 and 6 it validates
that the supplied backup path exists and is a directory, raising a typed
session error otherwise (which performRestore reports as a failed task
creation). -/
def newRestoreOk (env : Env) (p : Path) : Bool := env.fsExists p && env.fsIsDir p

/-- main.cpp lines 594-615: construct the RestoreTask (fatal EXIT_FAILURE
when the library rejects the path), then run it under the Task Runner;
a RestoreException is fatal, success reports the counters and returns
EXIT_SUCCESS. -/
def restoreTaskPart (env : Env) (tr : Trace) (p : Path) : OpResult × Trace :=
  if !newRestoreOk env p then (OpResult.exit EXIT_FAILURE, pushMsg tr Msg.createTaskFailed)
  else
    let tr1 := pushMsg tr (Msg.restoreStarted p)
    match env.runRestore with
    | .ok => (OpResult.exit EXIT_SUCCESS, pushMsg tr1 Msg.restoreFinished)
    | .err => (OpResult.exit EXIT_FAILURE, tr1)
    | .cancel => (OpResult.raised Exn.cancelled, tr1)

/-- main.cpp lines 581-615: `performRestore`.  An exception escaping
getRestorePath is caught and logged; it is fatal only when the path came
from flag/environment — but exceptions can only arise in the interactive
loop (the flag is set after the expansion succeeds), so the code falls
through with the still-empty path, which the task construction then
rejects. -/
def performRestore (env : Env) (fuel : Nat) (tr : Trace) : OpResult × Trace :=
  match getRestorePath env fuel tr with
  | .fuelOut tr1 => (OpResult.fuelOut, tr1)
  | .raised _ tr1 => restoreTaskPart env (pushMsg tr1 Msg.accessFailed) Path.emptyP
  | .ok p _ tr1 => restoreTaskPart env tr1 p

/-- A concrete environment used to instantiate the theorems: no
cancellation, a cooperative user, a successful session, a roomy disk. -/
def envBase : Env := {
  quit := fun _ => false
  read := fun _ => some "input"
  sess := fun _ => SessOut.ok .LoggedIn
  hvUrl := "https://hv.example"
  argUser := none, argPassword := none, argTotp := none, argMbox := none, argDir := none
  envUser := none, envPassword := none, envTotp := none, envMbox := none, envDir := none
  email := "user@proton.me"
  outputPath := ⟨true, ["out"]⟩
  expand := fun p => p
  parsePath := fun s => ⟨true, [s]⟩
  createOk := fun _ _ => true
  fsExists := fun _ => true
  fsIsDir := fun _ => true
  spaceAvail := some (500 * 1024 * 1024)
  expectedUsage := some (10 * 1024 * 1024)
  newBackupOk := true
  runBackup := .ok
  runRestore := .ok }

/-- Environment in which the user has hit Ctrl+C before the run: the flag
is set and stdin is closed. -/
def envQuitAll : Env := { envBase with quit := fun _ => true, read := fun _ => none }

/-- Environment in which credentials come from flags and every login step
fails with a SessionException. -/
def envErr3 : Env :=
  { envBase with argUser := some "u", argPassword := some "p", sess := fun _ => SessOut.err }

/-- Environment whose session always reports AwaitingHV. -/
def envHVStay : Env := { envBase with sess := fun _ => SessOut.ok LoginState.AwaitingHV }

/-- Environment in which markHVSolved reports LoggedOut once and the replay
succeeds. -/
def envHVReplay : Env :=
  { envBase with
    sess := fun t => if t = 2 then SessOut.ok LoginState.LoggedOut else SessOut.ok LoginState.LoggedIn }

/-- Environment in which the user answers yes to everything. -/
def envYes : Env := { envBase with read := fun _ => some "yes" }

/-- Environment in which the user confirms the default path but directory
creation always fails. -/
def envNoCreate : Env :=
  { envBase with read := fun _ => some "yes", createOk := fun _ _ => false }

/-- Environment with a 10 MB expected usage against 5 MB of free space,
where the user confirms the default path and then declines the space
warning. -/
def envLowSpace : Env :=
  { envBase with
    read := fun t => if t = 0 then some "yes" else some "no"
    spaceAvail := some (5 * 1024 * 1024)
    expectedUsage := some (10 * 1024 * 1024) }

/-- Environment in which the user only ever enters empty lines. -/
def envEmptyReads : Env := { envBase with read := fun _ => some "" }

/-- Environment in which the user only ever enters an invalid token. -/
def envBadReads : Env := { envBase with read := fun _ => some "zzz" }

/-- Environment with a restore directory supplied by ET_DIR that does not
exist. -/
def envRestoreMissing : Env :=
  { envBase with envDir := some "missing", fsExists := fun _ => false }

/-! Helper lemmas about how the interpreters evolve the trace. -/

theorem readLineT_trace (env : Env) (label : String) (tr : Trace) :
    (readLineT env label tr).2 =
      { tr with tick := tr.tick + 1, prompts := tr.prompts ++ [(tr.tick, label)] } := by
  unfold readLineT
  cases env.read tr.tick
  · simp only []
    split <;> rfl
  · rfl

theorem readYesNoLoop_dirs (env : Env) (label : String) :
    ∀ n tr, ((readYesNoLoop env label n tr).2).dirsCreated = tr.dirsCreated := by
  intro n
  induction n with
  | zero => intro tr; rfl
  | succ n ih =>
    intro tr
    have h2 := readLineT_trace env label tr
    simp only [readYesNoLoop]
    split
    next s tr1 heq =>
      have htr1 : tr1.dirsCreated = tr.dirsCreated := by
        rw [heq] at h2; dsimp only at h2; rw [h2]
      split
      · rw [ih, pushMsg, htr1]
      · split
        · exact htr1
        · split
          · exact htr1
          · rw [ih, pushMsg, htr1]
    next e tr1 heq =>
      have : tr1.dirsCreated = tr.dirsCreated := by
        rw [heq] at h2; dsimp only at h2; rw [h2]
      exact this

theorem readYesNoLoop_msgs (env : Env) (label : String) :
    ∀ n tr m, m ∈ tr.msgs → m ∈ ((readYesNoLoop env label n tr).2).msgs := by
  intro n
  induction n with
  | zero => intro tr m hm; exact hm
  | succ n ih =>
    intro tr m hm
    have h2 := readLineT_trace env label tr
    simp only [readYesNoLoop]
    split
    next s tr1 heq =>
      have htr1 : m ∈ tr1.msgs := by
        rw [heq] at h2; dsimp only at h2; rw [h2]; exact hm
      split
      · exact ih _ m (by simp [pushMsg, htr1])
      · split
        · exact htr1
        · split
          · exact htr1
          · exact ih _ m (by simp [pushMsg, htr1])
    next e tr1 heq =>
      rw [heq] at h2; dsimp only at h2; rw [h2]; exact hm

theorem readPathLoop_prompts (env : Env) (label : String) :
    ∀ n tr, ∃ l, ((readPathLoop env label n tr).2).prompts = tr.prompts ++ l := by
  intro n
  induction n with
  | zero => intro tr; exact ⟨[], by simp [readPathLoop]⟩
  | succ n ih =>
    intro tr
    have h2 := readLineT_trace env label tr
    simp only [readPathLoop]
    split
    next s tr1 heq =>
      have htr1 : tr1.prompts = tr.prompts ++ [(tr.tick, label)] := by
        rw [heq] at h2; dsimp only at h2; rw [h2]
      split
      · rcases ih (pushMsg tr1 Msg.valueEmpty) with ⟨l, hl⟩
        exact ⟨(tr.tick, label) :: l, by rw [hl]; simp [pushMsg, htr1]⟩
      · split
        · rcases ih (pushMsg tr1 Msg.pathNotDirPrompt) with ⟨l, hl⟩
          exact ⟨(tr.tick, label) :: l, by rw [hl]; simp [pushMsg, htr1]⟩
        · exact ⟨[(tr.tick, label)], htr1⟩
    next e tr1 heq =>
      have htr1 : tr1.prompts = tr.prompts ++ [(tr.tick, label)] := by
        rw [heq] at h2; dsimp only at h2; rw [h2]
      exact ⟨[(tr.tick, label)], htr1⟩

theorem readPathLoop_prompts_head (env : Env) (label : String) (n : Nat) (tr : Trace) :
    ∃ rest, ((readPathLoop env label (n + 1) tr).2).prompts
      = tr.prompts ++ (tr.tick, label) :: rest := by
  have h2 := readLineT_trace env label tr
  simp only [readPathLoop]
  split
  next s tr1 heq =>
    have htr1 : tr1.prompts = tr.prompts ++ [(tr.tick, label)] := by
      rw [heq] at h2; dsimp only at h2; rw [h2]
    split
    · rcases readPathLoop_prompts env label n (pushMsg tr1 Msg.valueEmpty) with ⟨l2, hl2⟩
      exact ⟨l2, by rw [hl2]; simp [pushMsg, htr1]⟩
    · split
      · rcases readPathLoop_prompts env label n (pushMsg tr1 Msg.pathNotDirPrompt) with ⟨l2, hl2⟩
        exact ⟨l2, by rw [hl2]; simp [pushMsg, htr1]⟩
      · exact ⟨[], by simp [htr1]⟩
  next e tr1 heq =>
    have htr1 : tr1.prompts = tr.prompts ++ [(tr.tick, label)] := by
      rw [heq] at h2; dsimp only at h2; rw [h2]
    exact ⟨[], by simp [htr1]⟩

theorem readPath_prompts_head (env : Env) (label : String) (tr : Trace) :
    ∃ rest, (((readPath env label tr).2).prompts = tr.prompts ++ (tr.tick, label) :: rest) :=
  readPathLoop_prompts_head env label 2 tr

theorem readPath_prompts (env : Env) (label : String) (tr : Trace) :
    ∃ l, ((readPath env label tr).2).prompts = tr.prompts ++ l :=
  readPathLoop_prompts env label kNumInputRetries tr

/-- The trace component of a tryCreate result. -/
def sumTrace : (Path × Trace) ⊕ (Path × Trace) → Trace
  | .inl (_, tr) => tr
  | .inr (_, tr) => tr

theorem tryCreate_prompts (env : Env) (bp : Path) (tr : Trace) :
    (sumTrace (tryCreate env bp tr)).prompts = tr.prompts := by
  simp only [tryCreate]
  split <;> rfl

theorem backupPathLoop_prompts (env : Env) :
    ∀ n pe fa ud bp tr,
      ∃ l, ((backupPathLoop env n pe fa ud bp tr).trace).prompts = tr.prompts ++ l := by
  intro n
  induction n with
  | zero => intro pe fa ud bp tr; exact ⟨[], by simp [backupPathLoop, BPRes.trace]⟩
  | succ n ih =>
    intro pe fa ud bp tr
    simp only [backupPathLoop]
    split
    · -- promptEntry: interactive path prompt first
      rcases hp : readPath env "Export Path" tr with ⟨o, tr1⟩
      rcases readPath_prompts env "Export Path" tr with ⟨l1, hl1⟩
      rw [hp] at hl1; dsimp only at hl1
      cases o with
      | exn e => exact ⟨l1, by simp [BPRes.trace, hp, hl1]⟩
      | ok p =>
        have htc := tryCreate_prompts env p tr1
        rcases htc2 : tryCreate env p tr1 with ⟨q, tr2⟩ | ⟨q, tr2⟩ <;>
          rw [htc2] at htc <;> dsimp only [sumTrace] at htc
        · exact ⟨l1, by simp [BPRes.trace, hp, htc2, htc, hl1]⟩
        · by_cases hfa : fa = true
          · subst hfa
            exact ⟨l1, by simp [BPRes.trace, hp, htc2, htc, hl1]⟩
          · have hfa' : fa = false := by simpa using hfa
            subst hfa'
            rcases ih pe false false q tr2 with ⟨l2, hl2⟩
            exact ⟨l1 ++ l2, by simp [hp, htc2, hl2, htc, hl1]⟩
    · -- no prompt this iteration
      rcases htc2 : tryCreate env (if bp = Path.emptyP then env.outputPath else bp) tr
          with ⟨q, tr2⟩ | ⟨q, tr2⟩ <;>
        have htc := tryCreate_prompts env (if bp = Path.emptyP then env.outputPath else bp) tr <;>
        rw [htc2] at htc <;> dsimp only [sumTrace] at htc
      · exact ⟨[], by simp [BPRes.trace, htc2, htc]⟩
      · by_cases hfa : fa = true
        · subst hfa
          exact ⟨[], by simp [BPRes.trace, htc2, htc]⟩
        · have hfa' : fa = false := by simpa using hfa
          subst hfa'
          rcases ih pe false ud q tr2 with ⟨l2, hl2⟩
          exact ⟨l2, by simp [htc2, hl2, htc]⟩

theorem backupPathLoop_prompt_first (env : Env) (n : Nat) (fa ud : Bool) (bp : Path)
    (tr : Trace) :
    ∃ rest, ((backupPathLoop env (n + 1) true fa ud bp tr).trace).prompts
      = tr.prompts ++ (tr.tick, "Export Path") :: rest := by
  simp only [backupPathLoop, if_true]
  rcases hp : readPath env "Export Path" tr with ⟨o, tr1⟩
  rcases readPath_prompts_head env "Export Path" tr with ⟨r1, hr1⟩
  rw [hp] at hr1; dsimp only at hr1
  cases o with
  | exn e => exact ⟨r1, by simp [BPRes.trace, hp, hr1]⟩
  | ok p =>
    have htc := tryCreate_prompts env p tr1
    rcases htc2 : tryCreate env p tr1 with ⟨q, tr2⟩ | ⟨q, tr2⟩ <;>
      rw [htc2] at htc <;> dsimp only [sumTrace] at htc
    · exact ⟨r1, by simp [BPRes.trace, hp, htc2, htc, hr1]⟩
    · by_cases hfa : fa = true
      · subst hfa
        exact ⟨r1, by simp [BPRes.trace, hp, htc2, htc, hr1]⟩
      · have hfa' : fa = false := by simpa using hfa
        subst hfa'
        rcases backupPathLoop_prompts env n true false false q tr2 with ⟨l2, hl2⟩
        exact ⟨r1 ++ l2, by simp [hp, htc2, hl2, htc, hr1]⟩

theorem restorePathLoop_prompts (env : Env) :
    ∀ n tr, ∃ l, ((restorePathLoop env n tr).trace).prompts = tr.prompts ++ l := by
  intro n
  induction n with
  | zero => intro tr; exact ⟨[], by simp [restorePathLoop, RPRes.trace]⟩
  | succ n ih =>
    intro tr
    simp only [restorePathLoop]
    rcases hp : readPath env "Backup Path" tr with ⟨o, tr1⟩
    rcases readPath_prompts env "Backup Path" tr with ⟨l1, hl1⟩
    rw [hp] at hl1; dsimp only at hl1
    cases o with
    | exn e => exact ⟨l1, by simp [RPRes.trace, hp, hl1]⟩
    | ok p =>
      rcases ih (pushMsg tr1 Msg.pathNotExists) with ⟨l2, hl2⟩
      rcases ih (pushMsg tr1 Msg.pathNotDir) with ⟨l3, hl3⟩
      dsimp only
      split
      · exact ⟨l1 ++ l2, by rw [hl2]; simp [pushMsg, hl1]⟩
      · split
        · exact ⟨l1 ++ l3, by rw [hl3]; simp [pushMsg, hl1]⟩
        · exact ⟨l1, by simp [RPRes.trace, hp, hl1]⟩

theorem restorePathLoop_prompt_first (env : Env) (n : Nat) (tr : Trace) :
    ∃ rest, ((restorePathLoop env (n + 1) tr).trace).prompts
      = tr.prompts ++ (tr.tick, "Backup Path") :: rest := by
  simp only [restorePathLoop]
  rcases hp : readPath env "Backup Path" tr with ⟨o, tr1⟩
  rcases readPath_prompts_head env "Backup Path" tr with ⟨r1, hr1⟩
  rw [hp] at hr1; dsimp only at hr1
  cases o with
  | exn e => exact ⟨r1, by simp [RPRes.trace, hp, hr1]⟩
  | ok p =>
    rcases restorePathLoop_prompts env n (pushMsg tr1 Msg.pathNotExists) with ⟨l2, hl2⟩
    rcases restorePathLoop_prompts env n (pushMsg tr1 Msg.pathNotDir) with ⟨l3, hl3⟩
    dsimp only
    split
    · exact ⟨r1 ++ l2, by rw [hl2]; simp [pushMsg, hr1]⟩
    · split
      · exact ⟨r1 ++ l3, by rw [hl3]; simp [pushMsg, hr1]⟩
      · exact ⟨r1, by simp [RPRes.trace, hp, hr1]⟩

/-! Claim C2: the retry bound of performLogin. -/

/-- C2: after 3 consecutive recoverable failures (SessionException) of
login steps without an intervening success, performLogin returns
EXIT_FAILURE with the "max attempts reached" diagnostic; in particular,
three consecutive wrong passwords at LoggedOut (cancellation unset) exit
non-zero and no state other than LoggedOut is ever visited. -/
theorem performLogin_max_attempts :
    (∀ (env : Env) (st : LoginSt) (tr : Trace) (vis : List LoginState) (fuel : Nat),
       env.quit tr.tick = false → st.state ≠ LoginState.LoggedIn →
       kMaxNumLoginAttempts ≤ st.attempts →
       performLoginLoop env (fuel + 1) st tr vis
         = (LoginResult.exit EXIT_FAILURE, pushMsg (tickAdv tr) Msg.maxAttempts,
            vis ++ [st.state])) ∧
    (∀ (env : Env) (u p : String) (tr : Trace),
       (∀ t, env.quit t = false) → (∀ t, env.sess t = SessOut.err) →
       env.argUser = some u → u.isEmpty = false →
       env.argPassword = some p → p.isEmpty = false →
       (performLogin env 4 tr).1 = LoginResult.exit EXIT_FAILURE ∧
       (performLogin env 4 tr).2.2 =
         [LoginState.LoggedOut, LoginState.LoggedOut, LoginState.LoggedOut,
          LoginState.LoggedOut] ∧
       Msg.maxAttempts ∈ (performLogin env 4 tr).2.1.msgs) ∧
    EXIT_FAILURE ≠ 0 := by
  refine ⟨?_, ?_, by decide⟩
  · intro env st tr vis fuel hq hst hatt
    simp [performLoginLoop, hst, hq, hatt]
  · intro env u p tr hq hs ha hu hp hpe
    have hstep : ∀ (a : Nat) (u0 p0 : String) (tr' : Trace),
        loginStep env ⟨LoginState.LoggedOut, a, u0, p0⟩ tr'
          = StepRes.cont ⟨LoginState.LoggedOut, a + 1, u0, p0⟩
              (pushMsg { tr' with tick := tr'.tick + 2
                                  calls := tr'.calls ++ [(tr'.tick + 1, SessionCall.login u p)] }
                Msg.loginFailed)
              true := by
      intro a u0 p0 tr'
      simp [loginStep, getCLIValue, ha, hu, hp, hpe, hq, sessCallT, tickAdv, hs, pushMsg]
    simp [performLogin, performLoginLoop, hstep, hq, pushMsg, tickAdv, kMaxNumLoginAttempts]

/-- Witness for C2: at a concrete environment where the flag-supplied
credentials are wrong three times, performLogin exits EXIT_FAILURE having
visited only LoggedOut. -/
theorem performLogin_max_attempts_witness :
    (performLogin envErr3 4 Trace.init).1 = LoginResult.exit EXIT_FAILURE ∧
    (performLogin envErr3 4 Trace.init).2.2 =
      [LoginState.LoggedOut, LoginState.LoggedOut, LoginState.LoggedOut,
       LoginState.LoggedOut] ∧
    Msg.maxAttempts ∈ (performLogin envErr3 4 Trace.init).2.1.msgs :=
  performLogin_max_attempts.2.1 envErr3 "u" "p" Trace.init
    (fun _ => rfl) (fun _ => rfl) rfl (by decide) rfl (by decide)

/-! Claim C3: the retry counter on step completion. -/

/-- C3 (amended): whenever one iteration of the login switch continues the
loop, the retry counter is either reset to 0 or incremented by 1 with the
state left unchanged; when the iteration caught no SessionException the
counter is reset to 0 — except in AwaitingHV, where an exception-free step
that leaves the state at AwaitingHV increments the counter instead. -/
theorem loginStep_retry_reset (env : Env) (st : LoginSt) (tr : Trace)
    (st1 : LoginSt) (tr1 : Trace) (b : Bool)
    (h : loginStep env st tr = StepRes.cont st1 tr1 b) :
    (st1.attempts = 0 ∨ (st1.attempts = st.attempts + 1 ∧ st1.state = st.state)) ∧
    (b = false → st1.attempts = 0 ∨
      (st.state = LoginState.AwaitingHV ∧ st1.state = LoginState.AwaitingHV ∧
       st1.attempts = st.attempts + 1)) := by
  rcases st with ⟨s, a, u0, p0⟩
  cases s <;> simp only [loginStep] at h <;> repeat' (split at h)
  all_goals (try (obtain ⟨rfl, rfl, rfl⟩ := StepRes.cont.inj h))
  all_goals simp_all

/-- Counterexample to C3 as stated: in AwaitingHV with 0 accumulated
retries, markHVSolved completes without raising any error, reports
AwaitingHV again, and the counter becomes 1 instead of being reset to 0. -/
theorem loginStep_retry_reset_cex :
    loginStep envHVStay ⟨LoginState.AwaitingHV, 0, "u", "p"⟩ Trace.init
      = StepRes.cont ⟨LoginState.AwaitingHV, 1, "u", "p"⟩
          ⟨3, [(0, "Press ENTER to continue")], [], [(2, SessionCall.markHVSolved)], []⟩
          false ∧
    (1 : Nat) ≠ 0 := by
  exact ⟨by decide, by decide⟩

/-- Witness for C3: a successful LoggedOut login step resets the counter. -/
theorem loginStep_retry_reset_witness :
    ((⟨LoginState.LoggedIn, 0, "input", "input"⟩ : LoginSt).attempts = 0 ∨
      ((⟨LoginState.LoggedIn, 0, "input", "input"⟩ : LoginSt).attempts
          = (⟨LoginState.LoggedOut, 2, "", ""⟩ : LoginSt).attempts + 1 ∧
        (⟨LoginState.LoggedIn, 0, "input", "input"⟩ : LoginSt).state
          = (⟨LoginState.LoggedOut, 2, "", ""⟩ : LoginSt).state)) ∧
    (false = false →
      (⟨LoginState.LoggedIn, 0, "input", "input"⟩ : LoginSt).attempts = 0 ∨
        ((⟨LoginState.LoggedOut, 2, "", ""⟩ : LoginSt).state = LoginState.AwaitingHV ∧
         (⟨LoginState.LoggedIn, 0, "input", "input"⟩ : LoginSt).state = LoginState.AwaitingHV ∧
         (⟨LoginState.LoggedIn, 0, "input", "input"⟩ : LoginSt).attempts
           = (⟨LoginState.LoggedOut, 2, "", ""⟩ : LoginSt).attempts + 1)) :=
  loginStep_retry_reset envBase ⟨LoginState.LoggedOut, 2, "", ""⟩ Trace.init
    ⟨LoginState.LoggedIn, 0, "input", "input"⟩
    ⟨4, [(0, "Username"), (2, "Password")], [], [(3, SessionCall.login "input" "input")], []⟩
    false (by decide)

/-! Claim C4: cancellation before LoggedIn. -/

/-- C4: if the Cancellation Signal is set at any point before the login
orchestrator reaches LoggedIn — whether observed at a quit check, or via
the closed input stream making readLine raise the cancellation outcome
(CancelledException) instead of a generic I/O error — the process exits
with code 0 and issues no further prompts. -/
theorem performLogin_cancellation (env : Env) (t0 : Nat)
    (hmono : ∀ a b, a ≤ b → env.quit a = true → env.quit b = true)
    (hread : ∀ t, env.quit t = true → env.read t = none)
    (hq0 : env.quit t0 = true) :
    (∀ (fuel : Nat) (st : LoginSt) (tr : Trace) (vis : List LoginState),
       t0 ≤ tr.tick → st.state ≠ LoginState.LoggedIn →
       performLoginLoop env (fuel + 1) st tr vis
         = (LoginResult.exit EXIT_SUCCESS, tickAdv tr, vis ++ [st.state]) ∧
       (tickAdv tr).prompts = tr.prompts) ∧
    (∀ (label : String) (tr : Trace), t0 ≤ tr.tick →
       (readLineT env label tr).1 = Outcome.exn Exn.cancelled) ∧
    mainExnExit Exn.cancelled = EXIT_SUCCESS ∧ EXIT_SUCCESS = 0 := by
  refine ⟨?_, ?_, rfl, rfl⟩
  · intro fuel st tr vis ht hst
    have hqt : env.quit tr.tick = true := hmono t0 tr.tick ht hq0
    exact ⟨by simp [performLoginLoop, hst, hqt], rfl⟩
  · intro label tr ht
    have hqt : env.quit tr.tick = true := hmono t0 tr.tick ht hq0
    simp [readLineT, hread tr.tick hqt, hqt]

/-- Witness for C4: Ctrl+C already received at process start. -/
theorem performLogin_cancellation_witness :
    performLoginLoop envQuitAll 1 ⟨LoginState.LoggedOut, 0, "", ""⟩ Trace.init []
      = (LoginResult.exit EXIT_SUCCESS, tickAdv Trace.init, [LoginState.LoggedOut]) ∧
    (readLineT envQuitAll "Username" Trace.init).1 = Outcome.exn Exn.cancelled ∧
    mainExnExit Exn.cancelled = 0 := by
  have h := performLogin_cancellation envQuitAll 0
    (fun _ _ _ _ => rfl) (fun _ _ => rfl) rfl
  exact ⟨(h.1 0 ⟨LoginState.LoggedOut, 0, "", ""⟩ Trace.init [] (Nat.zero_le _)
            (by decide)).1,
         h.2.1 "Username" Trace.init (Nat.zero_le _), h.2.2.1⟩

/-! Claim C5: the HV branch and credential precedence. -/

/-- C5: in AwaitingHV, after the user confirms the browser challenge the
orchestrator calls markHVSolved; if that reports LoggedOut it replays the
original login call with exactly the saved username and password; a
successful LoggedOut step saves exactly the credentials resolved by
getCLIValue, in which a non-empty command-line flag wins over everything
and a non-empty environment variable wins over the interactive prompt. -/
theorem performLogin_hv_replay :
    (∀ (env : Env) (a : Nat) (u0 p0 : String) (tr : Trace),
       env.quit (tr.tick + 1) = false →
       env.sess (tr.tick + 2) = SessOut.ok LoginState.LoggedOut →
       (loginStep env ⟨LoginState.AwaitingHV, a, u0, p0⟩ tr).trace.calls
         = tr.calls ++ [(tr.tick + 2, SessionCall.markHVSolved),
                        (tr.tick + 3, SessionCall.login u0 p0)]) ∧
    (∀ (arg envv : Option String) (fb : Trace → Outcome String × Trace) (tr : Trace)
       (a : String), arg = some a → a.isEmpty = false →
       getCLIValue arg envv fb tr = (Outcome.ok a, tr)) ∧
    (∀ (envv : Option String) (fb : Trace → Outcome String × Trace) (tr : Trace)
       (b : String), envv = some b → b.isEmpty = false →
       getCLIValue none envv fb tr = (Outcome.ok b, tr)) ∧
    (∀ (env : Env) (u p : String) (s : LoginState) (a : Nat) (u0 p0 : String) (tr : Trace),
       env.argUser = some u → u.isEmpty = false →
       env.argPassword = some p → p.isEmpty = false →
       env.quit tr.tick = false →
       env.sess (tr.tick + 1) = SessOut.ok s →
       loginStep env ⟨LoginState.LoggedOut, a, u0, p0⟩ tr
         = StepRes.cont ⟨s, 0, u, p⟩
             { tr with tick := tr.tick + 2
                       calls := tr.calls ++ [(tr.tick + 1, SessionCall.login u p)] }
             false) := by
  refine ⟨?_, ?_, ?_, ?_⟩
  · intro env a u0 p0 tr hq hs
    simp only [loginStep, waitForEnter, tickAdv, sessCallT]
    simp only [hq]
    rcases h3 : env.sess (tr.tick + 1 + 1 + 1) with s2 | _ | _
    · by_cases hs2 : s2 = LoginState.AwaitingHV <;> simp_all [StepRes.trace, pushMsg]
    · simp_all [StepRes.trace, pushMsg]
    · simp_all [StepRes.trace, pushMsg]
  · intro arg envv fb tr a ha hae
    simp [getCLIValue, ha, hae]
  · intro envv fb tr b hb hbe
    simp only [getCLIValue, hb, hbe]
    rw [if_neg (by decide), if_pos (by decide)]
  · intro env u p s a u0 p0 tr ha hu hp hpe hq hs
    simp [loginStep, getCLIValue, ha, hu, hp, hpe, hq, sessCallT, tickAdv, hs]

/-- Witness for C5: markHVSolved reports LoggedOut and the replay reuses
the stored "u"/"p" verbatim; flag and environment values win in
getCLIValue; a successful login stores the flag-supplied credentials. -/
theorem performLogin_hv_replay_witness :
    (loginStep envHVReplay ⟨LoginState.AwaitingHV, 0, "u", "p"⟩ Trace.init).trace.calls
      = [(2, SessionCall.markHVSolved), (3, SessionCall.login "u" "p")] ∧
    getCLIValue (some "flag") (some "envvar") (readText envBase "Username") Trace.init
      = (Outcome.ok "flag", Trace.init) ∧
    getCLIValue none (some "envvar") (readText envBase "Username") Trace.init
      = (Outcome.ok "envvar", Trace.init) ∧
    loginStep { envBase with argUser := some "u", argPassword := some "p" }
        ⟨LoginState.LoggedOut, 0, "", ""⟩ Trace.init
      = StepRes.cont ⟨LoginState.LoggedIn, 0, "u", "p"⟩
          { Trace.init with tick := 2
                            calls := [(1, SessionCall.login "u" "p")] }
          false := by
  have h := performLogin_hv_replay
  refine ⟨?_, h.2.1 (some "flag") (some "envvar") (readText envBase "Username")
            Trace.init "flag" rfl (by decide),
          h.2.2.1 (some "envvar") (readText envBase "Username") Trace.init "envvar"
            rfl (by decide), ?_⟩
  · have := h.1 envHVReplay 0 "u" "p" Trace.init (by decide) (by decide)
    simpa using this
  · have h4 := h.2.2.2 { envBase with argUser := some "u", argPassword := some "p" }
      "u" "p" LoginState.LoggedIn 0 "" "" Trace.init
      rfl (by decide) rfl (by decide) rfl (by decide)
    simpa using h4

/-! Claim C1: the five-state invariant of the login state machine. -/

/-- C1: with the cancellation flag unset (cancellation, the subject of C4,
preempts everything with a clean exit), every LoginState visited by
performLogin's loop is one of the five declared states, except that a
facade-returned out-of-range value may appear as the final visited state,
in which case the loop aborts with EXIT_FAILURE; at such a state the very
next iteration reports the unexpected-state diagnostic and returns
EXIT_FAILURE without issuing any further session call or prompt. -/
theorem performLogin_five_states :
    (∀ (env : Env), (∀ t, env.quit t = false) →
      ∀ (fuel : Nat) (st : LoginSt) (tr : Trace) (vis : List LoginState),
        knownState st.state = true → (∀ s ∈ vis, knownState s = true) →
        ((∀ s ∈ (performLoginLoop env fuel st tr vis).2.2, knownState s = true) ∨
         (∃ pre c, (performLoginLoop env fuel st tr vis).2.2
              = pre ++ [LoginState.unknown c] ∧
            (∀ s ∈ pre, knownState s = true) ∧
            (performLoginLoop env fuel st tr vis).1 = LoginResult.exit EXIT_FAILURE))) ∧
    (∀ (env : Env) (st : LoginSt) (tr : Trace) (vis : List LoginState) (fuel : Nat) (c : Nat),
       st.state = LoginState.unknown c → env.quit tr.tick = false →
       st.attempts < kMaxNumLoginAttempts →
       performLoginLoop env (fuel + 1) st tr vis
         = (LoginResult.exit EXIT_FAILURE, pushMsg (tickAdv tr) (Msg.unexpectedState c),
            vis ++ [LoginState.unknown c]) ∧
       (pushMsg (tickAdv tr) (Msg.unexpectedState c)).calls = tr.calls ∧
       (pushMsg (tickAdv tr) (Msg.unexpectedState c)).prompts = tr.prompts) ∧
    EXIT_FAILURE ≠ EXIT_SUCCESS := by
  refine ⟨?_, ?_, by decide⟩
  · intro env hq fuel
    induction fuel with
    | zero =>
      intro st tr vis hst hvis
      left
      simpa [performLoginLoop] using hvis
    | succ fuel ih =>
      intro st tr vis hst hvis
      have hvis1 : ∀ s ∈ vis ++ [st.state], knownState s = true := by
        intro s hs
        rcases List.mem_append.1 hs with h | h
        · exact hvis s h
        · rw [List.mem_singleton.1 h]; exact hst
      by_cases hLI : st.state = LoginState.LoggedIn
      · left
        simpa [performLoginLoop, hLI] using hvis
      · by_cases hatt : kMaxNumLoginAttempts ≤ st.attempts
        · left
          have heq : performLoginLoop env (fuel + 1) st tr vis
              = (LoginResult.exit EXIT_FAILURE, pushMsg (tickAdv tr) Msg.maxAttempts,
                 vis ++ [st.state]) := by
            simp [performLoginLoop, hLI, hq tr.tick, hatt]
          rw [heq]
          exact hvis1
        · rcases hstep : loginStep env st (tickAdv tr) with ⟨r, tr1⟩ | ⟨st1, tr1, b⟩
          · left
            have heq : performLoginLoop env (fuel + 1) st tr vis = (r, tr1, vis ++ [st.state]) := by
              simp [performLoginLoop, hLI, hq tr.tick, hatt, hstep]
            rw [heq]
            exact hvis1
          · have heq : performLoginLoop env (fuel + 1) st tr vis
                = performLoginLoop env fuel st1 tr1 (vis ++ [st.state]) := by
              simp [performLoginLoop, hLI, hq tr.tick, hatt, hstep]
            rw [heq]
            by_cases hk : knownState st1.state = true
            · exact ih st1 tr1 (vis ++ [st.state]) hk hvis1
            · have hex : ∃ c, st1.state = LoginState.unknown c := by
                cases h1 : st1.state <;> simp_all [knownState]
              rcases hex with ⟨c, hc⟩
              cases fuel with
              | zero =>
                left
                simpa [performLoginLoop] using hvis1
              | succ fuel2 =>
                have hne : st1.state ≠ LoginState.LoggedIn := by rw [hc]; simp
                right
                by_cases hatt2 : kMaxNumLoginAttempts ≤ st1.attempts
                · exact ⟨vis ++ [st.state], c,
                    by simp [performLoginLoop, hne, hq tr1.tick, hatt2, hc], hvis1,
                    by simp [performLoginLoop, hne, hq tr1.tick, hatt2, hc]⟩
                · exact ⟨vis ++ [st.state], c,
                    by simp [performLoginLoop, hne, hq tr1.tick, hatt2, hc, loginStep], hvis1,
                    by simp [performLoginLoop, hne, hq tr1.tick, hatt2, hc, loginStep]⟩
  · intro env st tr vis fuel c hst hq hatt
    have hne : st.state ≠ LoginState.LoggedIn := by rw [hst]; simp
    have hatt' : ¬ kMaxNumLoginAttempts ≤ st.attempts := by omega
    refine ⟨?_, rfl, rfl⟩
    simp [performLoginLoop, hne, hq, hatt', loginStep, hst]

/-- Witness for C1: a run of the loop at a concrete environment, and the
unexpected-state abort at a concrete out-of-range state. -/
theorem performLogin_five_states_witness :
    ((∀ s ∈ (performLoginLoop envBase 1 ⟨LoginState.LoggedOut, 0, "", ""⟩
          Trace.init []).2.2, knownState s = true) ∨
     (∃ pre c, (performLoginLoop envBase 1 ⟨LoginState.LoggedOut, 0, "", ""⟩
            Trace.init []).2.2 = pre ++ [LoginState.unknown c] ∧
        (∀ s ∈ pre, knownState s = true) ∧
        (performLoginLoop envBase 1 ⟨LoginState.LoggedOut, 0, "", ""⟩
            Trace.init []).1 = LoginResult.exit EXIT_FAILURE)) ∧
    performLoginLoop envBase 1 ⟨LoginState.unknown 7, 0, "", ""⟩ Trace.init []
      = (LoginResult.exit EXIT_FAILURE,
         pushMsg (tickAdv Trace.init) (Msg.unexpectedState 7), [LoginState.unknown 7]) :=
  ⟨performLogin_five_states.1 envBase (fun _ => rfl) 1 ⟨LoginState.LoggedOut, 0, "", ""⟩
      Trace.init [] (by decide) (by intro s hs; cases hs),
   by
    have h := (performLogin_five_states.2.1 envBase ⟨LoginState.unknown 7, 0, "", ""⟩
      Trace.init [] 0 7 rfl rfl (by decide)).1
    simpa using h⟩

/-! Helper lemmas for Claim C10: every reader issues at most `n` prompts
and exhausts to a ReadInputException under persistently bad input. -/

theorem readTextLoop_prompts_len (env : Env) (label : String) :
    ∀ n tr, ((readTextLoop env label n tr).2).prompts.length ≤ tr.prompts.length + n := by
  intro n
  induction n with
  | zero => intro tr; simp [readTextLoop]
  | succ n ih =>
    intro tr
    have h2 := readLineT_trace env label tr
    simp only [readTextLoop]
    split
    next s tr1 heq =>
      have htr1 : tr1.prompts = tr.prompts ++ [(tr.tick, label)] := by
        rw [heq] at h2; dsimp only at h2; rw [h2]
      split
      · have hih := ih (pushMsg tr1 Msg.valueEmpty)
        have hlen : (pushMsg tr1 Msg.valueEmpty).prompts.length = tr.prompts.length + 1 := by
          simp [pushMsg, htr1]
        omega
      · simp [htr1]
    next e tr1 heq =>
      have htr1 : tr1.prompts = tr.prompts ++ [(tr.tick, label)] := by
        rw [heq] at h2; dsimp only at h2; rw [h2]
      simp [htr1]

theorem readYesNoLoop_prompts_len (env : Env) (label : String) :
    ∀ n tr, ((readYesNoLoop env label n tr).2).prompts.length ≤ tr.prompts.length + n := by
  intro n
  induction n with
  | zero => intro tr; simp [readYesNoLoop]
  | succ n ih =>
    intro tr
    have h2 := readLineT_trace env label tr
    simp only [readYesNoLoop]
    split
    next s tr1 heq =>
      have htr1 : tr1.prompts = tr.prompts ++ [(tr.tick, label)] := by
        rw [heq] at h2; dsimp only at h2; rw [h2]
      split
      · have hih := ih (pushMsg tr1 Msg.valueEmpty)
        have hlen : (pushMsg tr1 Msg.valueEmpty).prompts.length = tr.prompts.length + 1 := by
          simp [pushMsg, htr1]
        omega
      · split
        · simp [htr1]
        · split
          · simp [htr1]
          · have hih := ih (pushMsg tr1 Msg.invalidValue)
            have hlen : (pushMsg tr1 Msg.invalidValue).prompts.length = tr.prompts.length + 1 := by
              simp [pushMsg, htr1]
            omega
    next e tr1 heq =>
      have htr1 : tr1.prompts = tr.prompts ++ [(tr.tick, label)] := by
        rw [heq] at h2; dsimp only at h2; rw [h2]
      simp [htr1]

theorem readOperationLoop_prompts_len (env : Env) (label : String) :
    ∀ n tr, ((readOperationLoop env label n tr).2).prompts.length ≤ tr.prompts.length + n := by
  intro n
  induction n with
  | zero => intro tr; simp [readOperationLoop]
  | succ n ih =>
    intro tr
    have h2 := readLineT_trace env label tr
    simp only [readOperationLoop]
    split
    next s tr1 heq =>
      have htr1 : tr1.prompts = tr.prompts ++ [(tr.tick, label)] := by
        rw [heq] at h2; dsimp only at h2; rw [h2]
      split
      · have hih := ih (pushMsg tr1 Msg.valueEmpty)
        have hlen : (pushMsg tr1 Msg.valueEmpty).prompts.length = tr.prompts.length + 1 := by
          simp [pushMsg, htr1]
        omega
      · split
        · simp [htr1]
        · split
          · simp [htr1]
          · have hih := ih (pushMsg tr1 Msg.invalidValue)
            have hlen : (pushMsg tr1 Msg.invalidValue).prompts.length = tr.prompts.length + 1 := by
              simp [pushMsg, htr1]
            omega
    next e tr1 heq =>
      have htr1 : tr1.prompts = tr.prompts ++ [(tr.tick, label)] := by
        rw [heq] at h2; dsimp only at h2; rw [h2]
      simp [htr1]

theorem readPathLoop_prompts_len (env : Env) (label : String) :
    ∀ n tr, ((readPathLoop env label n tr).2).prompts.length ≤ tr.prompts.length + n := by
  intro n
  induction n with
  | zero => intro tr; simp [readPathLoop]
  | succ n ih =>
    intro tr
    have h2 := readLineT_trace env label tr
    simp only [readPathLoop]
    split
    next s tr1 heq =>
      have htr1 : tr1.prompts = tr.prompts ++ [(tr.tick, label)] := by
        rw [heq] at h2; dsimp only at h2; rw [h2]
      split
      · have hih := ih (pushMsg tr1 Msg.valueEmpty)
        have hlen : (pushMsg tr1 Msg.valueEmpty).prompts.length = tr.prompts.length + 1 := by
          simp [pushMsg, htr1]
        omega
      · split
        · have hih := ih (pushMsg tr1 Msg.pathNotDirPrompt)
          have hlen : (pushMsg tr1 Msg.pathNotDirPrompt).prompts.length = tr.prompts.length + 1 := by
            simp [pushMsg, htr1]
          omega
        · simp [htr1]
    next e tr1 heq =>
      have htr1 : tr1.prompts = tr.prompts ++ [(tr.tick, label)] := by
        rw [heq] at h2; dsimp only at h2; rw [h2]
      simp [htr1]

theorem readTextLoop_empty_exhausts (env : Env) (label : String)
    (hread : ∀ t, env.read t = some "") :
    ∀ n tr, (readTextLoop env label n tr).1 = Outcome.exn Exn.readInput := by
  intro n
  induction n with
  | zero => intro tr; rfl
  | succ n ih =>
    intro tr
    simp only [readTextLoop, readLineT, hread tr.tick]
    rw [if_pos (by decide)]
    exact ih _

theorem readYesNoLoop_empty_exhausts (env : Env) (label : String)
    (hread : ∀ t, env.read t = some "") :
    ∀ n tr, (readYesNoLoop env label n tr).1 = Outcome.exn Exn.readInput := by
  intro n
  induction n with
  | zero => intro tr; rfl
  | succ n ih =>
    intro tr
    simp only [readYesNoLoop, readLineT, hread tr.tick]
    rw [if_pos (by decide)]
    exact ih _

theorem readOperationLoop_empty_exhausts (env : Env) (label : String)
    (hread : ∀ t, env.read t = some "") :
    ∀ n tr, (readOperationLoop env label n tr).1 = Outcome.exn Exn.readInput := by
  intro n
  induction n with
  | zero => intro tr; rfl
  | succ n ih =>
    intro tr
    simp only [readOperationLoop, readLineT, hread tr.tick]
    rw [if_pos (by decide)]
    exact ih _

theorem readPathLoop_empty_exhausts (env : Env) (label : String)
    (hread : ∀ t, env.read t = some "") :
    ∀ n tr, (readPathLoop env label n tr).1 = Outcome.exn Exn.readInput := by
  intro n
  induction n with
  | zero => intro tr; rfl
  | succ n ih =>
    intro tr
    simp only [readPathLoop, readLineT, hread tr.tick]
    rw [if_pos (by decide)]
    exact ih _

theorem readYesNoLoop_invalid_exhausts (env : Env) (label : String)
    (hread : ∀ t, env.read t = some "zzz") :
    ∀ n tr, (readYesNoLoop env label n tr).1 = Outcome.exn Exn.readInput := by
  intro n
  induction n with
  | zero => intro tr; rfl
  | succ n ih =>
    intro tr
    simp only [readYesNoLoop, readLineT, hread tr.tick]
    rw [if_neg (by decide), if_neg (by decide), if_neg (by decide)]
    exact ih _

theorem readOperationLoop_invalid_exhausts (env : Env) (label : String)
    (hread : ∀ t, env.read t = some "zzz") :
    ∀ n tr, (readOperationLoop env label n tr).1 = Outcome.exn Exn.readInput := by
  intro n
  induction n with
  | zero => intro tr; rfl
  | succ n ih =>
    intro tr
    simp only [readOperationLoop, readLineT, hread tr.tick]
    rw [if_neg (by decide), if_neg (by decide), if_neg (by decide)]
    exact ih _

/-! Claim C10: interactive prompting is bounded. -/

/-- C10: every interactive reader (readText, readSecret, readYesNo,
readOperation, readPath) issues at most kNumInputRetries = 3 prompts; under
persistently empty input (and, for the token readers, persistently invalid
input) the third unsuccessful attempt yields ReadInputException, which the
entry point's catch chain maps to the non-zero exit code EXIT_FAILURE. -/
theorem inputReaders_bounded :
    (∀ (env : Env) (label : String) (tr : Trace),
       ((readText env label tr).2).prompts.length ≤ tr.prompts.length + kNumInputRetries ∧
       ((readSecret env label tr).2).prompts.length ≤ tr.prompts.length + kNumInputRetries ∧
       ((readYesNo env label tr).2).prompts.length ≤ tr.prompts.length + kNumInputRetries ∧
       ((readOperation env label tr).2).prompts.length ≤ tr.prompts.length + kNumInputRetries ∧
       ((readPath env label tr).2).prompts.length ≤ tr.prompts.length + kNumInputRetries) ∧
    (∀ (env : Env) (label : String) (tr : Trace), (∀ t, env.read t = some "") →
       (readText env label tr).1 = Outcome.exn Exn.readInput ∧
       (readSecret env label tr).1 = Outcome.exn Exn.readInput ∧
       (readYesNo env label tr).1 = Outcome.exn Exn.readInput ∧
       (readOperation env label tr).1 = Outcome.exn Exn.readInput ∧
       (readPath env label tr).1 = Outcome.exn Exn.readInput) ∧
    (∀ (env : Env) (label : String) (tr : Trace), (∀ t, env.read t = some "zzz") →
       (readYesNo env label tr).1 = Outcome.exn Exn.readInput ∧
       (readOperation env label tr).1 = Outcome.exn Exn.readInput) ∧
    mainExnExit Exn.readInput = EXIT_FAILURE ∧ EXIT_FAILURE ≠ EXIT_SUCCESS := by
  refine ⟨?_, ?_, ?_, rfl, by decide⟩
  · intro env label tr
    exact ⟨readTextLoop_prompts_len env label kNumInputRetries tr,
           readTextLoop_prompts_len env label kNumInputRetries tr,
           readYesNoLoop_prompts_len env label kNumInputRetries tr,
           readOperationLoop_prompts_len env label kNumInputRetries tr,
           readPathLoop_prompts_len env label kNumInputRetries tr⟩
  · intro env label tr hread
    exact ⟨readTextLoop_empty_exhausts env label hread kNumInputRetries tr,
           readTextLoop_empty_exhausts env label hread kNumInputRetries tr,
           readYesNoLoop_empty_exhausts env label hread kNumInputRetries tr,
           readOperationLoop_empty_exhausts env label hread kNumInputRetries tr,
           readPathLoop_empty_exhausts env label hread kNumInputRetries tr⟩
  · intro env label tr hread
    exact ⟨readYesNoLoop_invalid_exhausts env label hread kNumInputRetries tr,
           readOperationLoop_invalid_exhausts env label hread kNumInputRetries tr⟩

/-- Witness for C10 at concrete environments: three empty entries exhaust
readText, three invalid entries exhaust readYesNo, and the exception maps
to a non-zero exit. -/
theorem inputReaders_bounded_witness :
    ((readText envEmptyReads "Username" Trace.init).2).prompts.length
        ≤ Trace.init.prompts.length + kNumInputRetries ∧
    (readText envEmptyReads "Username" Trace.init).1 = Outcome.exn Exn.readInput ∧
    (readYesNo envBadReads "Do you wish to proceed?" Trace.init).1
        = Outcome.exn Exn.readInput ∧
    mainExnExit Exn.readInput = EXIT_FAILURE :=
  ⟨(inputReaders_bounded.1 envEmptyReads "Username" Trace.init).1,
   (inputReaders_bounded.2.1 envEmptyReads "Username" Trace.init (fun _ => rfl)).1,
   (inputReaders_bounded.2.2.1 envBadReads "Do you wish to proceed?" Trace.init
      (fun _ => rfl)).1,
   inputReaders_bounded.2.2.2.1⟩

/-! Claim C9: restore source resolution and validation. -/

/-- C9: restore source-directory resolution follows the precedence
non-empty --dir flag over non-empty ET_DIR over the interactive prompt
(flag/environment paths are returned without interactive validation); a
user-entered path failing the exists/is-directory validation causes a
re-prompt (every loop round begins with a prompt); a flag/environment path
that the library rejects as not an existing directory makes performRestore
return EXIT_FAILURE immediately, with no prompt ever issued. -/
theorem restorePath_resolution :
    (∀ (env : Env) (fuel : Nat) (tr : Trace) (a : String),
       env.argDir = some a → a.isEmpty = false →
       getRestorePath env fuel tr = RPRes.ok (env.expand (env.parsePath a)) true tr) ∧
    (∀ (env : Env) (fuel : Nat) (tr : Trace) (b : String),
       (env.argDir = none ∨ env.argDir = some "") →
       env.envDir = some b → b.isEmpty = false →
       getRestorePath env fuel tr = RPRes.ok (env.expand (env.parsePath b)) true tr) ∧
    (∀ (env : Env) (fuel : Nat) (tr : Trace) (p : Path) (tr1 : Trace),
       readPath env "Backup Path" tr = (Outcome.ok p, tr1) →
       env.fsExists (resolveAgainst env.outputPath p) = false →
       restorePathLoop env (fuel + 1) tr
         = restorePathLoop env fuel (pushMsg tr1 Msg.pathNotExists)) ∧
    (∀ (env : Env) (fuel : Nat) (tr : Trace) (p : Path) (tr1 : Trace),
       readPath env "Backup Path" tr = (Outcome.ok p, tr1) →
       env.fsExists (resolveAgainst env.outputPath p) = true →
       env.fsIsDir (resolveAgainst env.outputPath p) = false →
       restorePathLoop env (fuel + 1) tr
         = restorePathLoop env fuel (pushMsg tr1 Msg.pathNotDir)) ∧
    (∀ (env : Env) (fuel : Nat) (tr : Trace),
       ∃ rest, ((restorePathLoop env (fuel + 1) tr).trace).prompts
         = tr.prompts ++ (tr.tick, "Backup Path") :: rest) ∧
    (∀ (env : Env) (fuel : Nat) (tr : Trace) (b : String),
       (env.argDir = none ∨ env.argDir = some "") →
       env.envDir = some b → b.isEmpty = false →
       newRestoreOk env (env.expand (env.parsePath b)) = false →
       performRestore env fuel tr
         = (OpResult.exit EXIT_FAILURE, pushMsg tr Msg.createTaskFailed) ∧
       (pushMsg tr Msg.createTaskFailed).prompts = tr.prompts) := by
  refine ⟨?_, ?_, ?_, ?_, ?_, ?_⟩
  · intro env fuel tr a ha hae
    simp [getRestorePath, getRestorePathArg, ha, hae]
  · intro env fuel tr b hnd hb hbe
    have h0 : ("" : String).isEmpty = true := by decide
    rcases hnd with hnd | hnd <;>
      simp [getRestorePath, getRestorePathArg, hnd, hb, hbe, h0]
  · intro env fuel tr p tr1 hp hex
    simp [restorePathLoop, hp, hex]
  · intro env fuel tr p tr1 hp hex hdir
    simp [restorePathLoop, hp, hex, hdir]
  · intro env fuel tr
    exact restorePathLoop_prompt_first env fuel tr
  · intro env fuel tr b hnd hb hbe hok
    have hget : getRestorePath env fuel tr
        = RPRes.ok (env.expand (env.parsePath b)) true tr := by
      have h0 : ("" : String).isEmpty = true := by decide
      rcases hnd with hnd | hnd <;>
        simp [getRestorePath, getRestorePathArg, hnd, hb, hbe, h0]
    refine ⟨?_, rfl⟩
    simp [performRestore, hget, restoreTaskPart, hok]

/-- Witness for C9: the restore directory comes from ET_DIR and does not
exist; performRestore fails immediately with no prompt. -/
theorem restorePath_resolution_witness :
    getRestorePath envRestoreMissing 1 Trace.init
      = RPRes.ok (envRestoreMissing.expand (envRestoreMissing.parsePath "missing"))
          true Trace.init ∧
    performRestore envRestoreMissing 1 Trace.init
      = (OpResult.exit EXIT_FAILURE, pushMsg Trace.init Msg.createTaskFailed) ∧
    (pushMsg Trace.init Msg.createTaskFailed).prompts = Trace.init.prompts :=
  ⟨restorePath_resolution.2.1 envRestoreMissing 1 Trace.init "missing"
     (Or.inl rfl) rfl (by decide),
   (restorePath_resolution.2.2.2.2.2 envRestoreMissing 1 Trace.init "missing"
     (Or.inl rfl) rfl (by decide) rfl).1,
   (restorePath_resolution.2.2.2.2.2 envRestoreMissing 1 Trace.init "missing"
     (Or.inl rfl) rfl (by decide) rfl).2⟩

/-! Helper lemmas for Claim C6. -/

theorem readYesNo_dirs (env : Env) (label : String) (tr : Trace) :
    ((readYesNo env label tr).2).dirsCreated = tr.dirsCreated :=
  readYesNoLoop_dirs env label kNumInputRetries tr

theorem readYesNo_msgs_mono (env : Env) (label : String) (tr : Trace) (m : Msg)
    (hm : m ∈ tr.msgs) : m ∈ ((readYesNo env label tr).2).msgs :=
  readYesNoLoop_msgs env label kNumInputRetries tr m hm

theorem runBackupPart_prompts (env : Env) (tr : Trace) (bp : Path) :
    ((runBackupPart env tr bp).2).prompts = tr.prompts := by
  cases h : env.runBackup <;> simp [runBackupPart, h, pushMsg]

theorem runBackupPart_dirs (env : Env) (tr : Trace) (bp : Path) :
    ((runBackupPart env tr bp).2).dirsCreated = tr.dirsCreated := by
  cases h : env.runBackup <;> simp [runBackupPart, h, pushMsg]

theorem runBackupPart_msgs_sub (env : Env) (tr : Trace) (bp : Path) :
    ∀ m ∈ ((runBackupPart env tr bp).2).msgs,
      m ∈ tr.msgs ∨ m = Msg.exportStarted bp ∨ m = Msg.exportFinished := by
  intro m
  cases h : env.runBackup <;> simp [runBackupPart, h, pushMsg] <;> tauto

theorem runBackupPart_msgs_mono (env : Env) (tr : Trace) (bp : Path) (m : Msg)
    (hm : m ∈ tr.msgs) : m ∈ ((runBackupPart env tr bp).2).msgs := by
  cases h : env.runBackup <;> simp [runBackupPart, h, pushMsg] <;> tauto

/-! Claim C6: the free-space confirmation in performBackup. -/

/-- C6: once the backup path is resolved and the space and usage queries
succeed, the MB-figured confirmation appears exactly when the expected
usage E exceeds the available space A: when E > A the warning carrying
toMB E and toMB A is shown (and the run asks the yes/no question), and a
decline ends the run with the clean exit code EXIT_SUCCESS = 0 with the
created directories unchanged from path resolution; when E ≤ A the run
proceeds directly to the export with no further prompt, no new directory,
and no space warning among the new messages. -/
theorem performBackup_space_check (env : Env) (fuel : Nat) (tr : Trace)
    (bp : Path) (fa ud : Bool) (tr1 : Trace) (A E : Nat)
    (hpath : getBackupPath env fuel tr = BPRes.ok bp fa ud tr1)
    (hA : env.spaceAvail = some A)
    (hnb : env.newBackupOk = true)
    (hE : env.expectedUsage = some E) :
    (A < E → Msg.spaceWarning (toMB E) (toMB A) ∈ ((performBackup env fuel tr).2).msgs) ∧
    (A < E → ∀ tr2 : Trace,
       readYesNo env "Do you wish to proceed?"
           (pushMsg tr1 (Msg.spaceWarning (toMB E) (toMB A))) = (Outcome.ok false, tr2) →
       performBackup env fuel tr = (OpResult.exit EXIT_SUCCESS, tr2) ∧
       tr2.dirsCreated = tr1.dirsCreated ∧ EXIT_SUCCESS = 0) ∧
    (¬ A < E →
       performBackup env fuel tr = runBackupPart env tr1 bp ∧
       ((runBackupPart env tr1 bp).2).prompts = tr1.prompts ∧
       ((runBackupPart env tr1 bp).2).dirsCreated = tr1.dirsCreated ∧
       (∀ m ∈ ((runBackupPart env tr1 bp).2).msgs,
          m ∈ tr1.msgs ∨ m = Msg.exportStarted bp ∨ m = Msg.exportFinished)) := by
  refine ⟨?_, ?_, ?_⟩
  · intro hlt
    have hwarn : Msg.spaceWarning (toMB E) (toMB A)
        ∈ (pushMsg tr1 (Msg.spaceWarning (toMB E) (toMB A))).msgs := by
      simp [pushMsg]
    rcases hy : readYesNo env "Do you wish to proceed?"
        (pushMsg tr1 (Msg.spaceWarning (toMB E) (toMB A))) with ⟨o, tr2⟩
    have hmem : Msg.spaceWarning (toMB E) (toMB A) ∈ tr2.msgs := by
      have := readYesNo_msgs_mono env "Do you wish to proceed?"
        (pushMsg tr1 (Msg.spaceWarning (toMB E) (toMB A)))
        (Msg.spaceWarning (toMB E) (toMB A)) hwarn
      rw [hy] at this
      exact this
    rcases o with b | e
    · rcases b with _ | _
      · simp [performBackup, hpath, hA, hnb, hE, hlt, hy, hmem]
      · simp [performBackup, hpath, hA, hnb, hE, hlt, hy]
        exact runBackupPart_msgs_mono env tr2 bp _ hmem
    · simp [performBackup, hpath, hA, hnb, hE, hlt, hy, hmem]
  · intro hlt tr2 hy
    refine ⟨by simp [performBackup, hpath, hA, hnb, hE, hlt, hy], ?_, rfl⟩
    have := readYesNo_dirs env "Do you wish to proceed?"
      (pushMsg tr1 (Msg.spaceWarning (toMB E) (toMB A)))
    rw [hy] at this
    simpa [pushMsg] using this
  · intro hge
    exact ⟨by simp [performBackup, hpath, hA, hnb, hE, hge],
           runBackupPart_prompts env tr1 bp,
           runBackupPart_dirs env tr1 bp,
           runBackupPart_msgs_sub env tr1 bp⟩

/-- Witness for C6 at a concrete environment: 10 MB expected against 5 MB
available shows the warning with both MB figures and a decline exits 0. -/
theorem performBackup_space_check_witness :
    (Msg.spaceWarning 10 5 ∈ ((performBackup envLowSpace 1 Trace.init).2).msgs) ∧
    performBackup envLowSpace 1 Trace.init
      = (OpResult.exit EXIT_SUCCESS,
         ⟨3, [(0, "Do you wish to proceed?"), (2, "Do you wish to proceed?")],
          [Msg.defaultPathShown ⟨true, ["out", "user@proton.me"]⟩,
           Msg.spaceWarning 10 5], [], [⟨true, ["out"]⟩]⟩) := by
  have h := performBackup_space_check envLowSpace 1 Trace.init
    ⟨true, ["out"]⟩ false true
    ⟨2, [(0, "Do you wish to proceed?")],
     [Msg.defaultPathShown ⟨true, ["out", "user@proton.me"]⟩], [], [⟨true, ["out"]⟩]⟩
    (5 * 1024 * 1024) (10 * 1024 * 1024)
    (by decide) rfl rfl rfl
  refine ⟨?_, ?_⟩
  · exact h.1 (by norm_num)
  · exact (h.2.1 (by norm_num)
      ⟨3, [(0, "Do you wish to proceed?"), (2, "Do you wish to proceed?")],
       [Msg.defaultPathShown ⟨true, ["out", "user@proton.me"]⟩,
        Msg.spaceWarning 10 5], [], [⟨true, ["out"]⟩]⟩
      (by decide)).1

/-! Claim C7: the default backup path. -/

/-- Counterexample to C7 as stated: with no --dir flag, the path presented
for confirmation is `<output-dir>/<email>`, but after the user confirms,
getBackupPath creates and returns `<output-dir>` itself — not the
displayed `<output-dir>/<email>`. -/
theorem getBackupPath_default_cex :
    getBackupPath envYes 1 Trace.init
      = BPRes.ok ⟨true, ["out"]⟩ false true
          ⟨2, [(0, "Do you wish to proceed?")],
           [Msg.defaultPathShown ⟨true, ["out", "user@proton.me"]⟩], [],
           [⟨true, ["out"]⟩]⟩ ∧
    Path.join envYes.outputPath ⟨false, [envYes.email]⟩
      = ⟨true, ["out", "user@proton.me"]⟩ ∧
    (⟨true, ["out"]⟩ : Path) ≠ ⟨true, ["out", "user@proton.me"]⟩ :=
  ⟨by decide, by decide, by decide⟩

/-- C7 (amended): when no --dir flag is supplied, the default path
presented for confirmation is `<platform-output-dir>/<account-email>` and
the user is always asked to confirm before proceeding; on confirmation,
however, the path actually created and used is the platform output
directory itself — the CLI does not append the email component (the
appending happens in the native export library, outside this code);
relative prompt-entered paths are resolved against the platform output
directory. -/
theorem getBackupPath_default (env : Env) (tr tr1 : Trace) (fuel : Nat)
    (hnd : env.argDir = none)
    (hy : readYesNo env "Do you wish to proceed?"
        (pushMsg tr (Msg.defaultPathShown (Path.join env.outputPath ⟨false, [env.email]⟩)))
        = (Outcome.ok true, tr1))
    (habs : env.outputPath.isRelative = false)
    (hcr : env.createOk tr1.tick env.outputPath = true) :
    (getBackupPath env (fuel + 1) tr
       = BPRes.ok env.outputPath false true
           { tr1 with tick := tr1.tick + 1
                      dirsCreated := tr1.dirsCreated ++ [env.outputPath] } ∧
     Msg.defaultPathShown (Path.join env.outputPath ⟨false, [env.email]⟩) ∈ tr1.msgs) ∧
    (∀ (q : Path) (tr2 : Trace), q.isRelative = true →
       env.createOk tr2.tick (Path.join env.outputPath q) = true →
       tryCreate env q tr2
         = Sum.inl (Path.join env.outputPath q,
             { tr2 with tick := tr2.tick + 1
                        dirsCreated := tr2.dirsCreated ++ [Path.join env.outputPath q] })) := by
  refine ⟨⟨?_, ?_⟩, ?_⟩
  · simp [getBackupPath, hnd, hy, backupPathLoop, tryCreate, resolveAgainst, habs, hcr]
  · have hwarn : Msg.defaultPathShown (Path.join env.outputPath ⟨false, [env.email]⟩)
        ∈ (pushMsg tr (Msg.defaultPathShown
            (Path.join env.outputPath ⟨false, [env.email]⟩))).msgs := by
      simp [pushMsg]
    have := readYesNo_msgs_mono env "Do you wish to proceed?"
      (pushMsg tr (Msg.defaultPathShown (Path.join env.outputPath ⟨false, [env.email]⟩)))
      _ hwarn
    rw [hy] at this
    exact this
  · intro q tr2 hrel hcr2
    simp [tryCreate, resolveAgainst, hrel, hcr2]

/-- Witness for C7's amended statement at a concrete environment. -/
theorem getBackupPath_default_witness :
    getBackupPath envYes 1 Trace.init
      = BPRes.ok envYes.outputPath false true
          { (⟨1, [(0, "Do you wish to proceed?")],
              [Msg.defaultPathShown ⟨true, ["out", "user@proton.me"]⟩], [], []⟩ : Trace)
            with tick := 2
                 dirsCreated := [envYes.outputPath] } ∧
    Msg.defaultPathShown (Path.join envYes.outputPath ⟨false, [envYes.email]⟩)
      ∈ [Msg.defaultPathShown ⟨true, ["out", "user@proton.me"]⟩] := by
  have h := (getBackupPath_default envYes Trace.init
    ⟨1, [(0, "Do you wish to proceed?")],
     [Msg.defaultPathShown ⟨true, ["out", "user@proton.me"]⟩], [], []⟩ 0
    rfl (by decide) rfl rfl).1
  exact ⟨by simpa using h.1, by simpa using h.2⟩

/-! Claim C8: directory creation policy of getBackupPath. -/

theorem tryCreate_inl_dirs (env : Env) (bp : Path) (tr : Trace) (q : Path) (tr2 : Trace)
    (h : tryCreate env bp tr = Sum.inl (q, tr2)) : q ∈ tr2.dirsCreated := by
  simp only [tryCreate] at h
  split at h
  · simp only [Sum.inl.injEq, Prod.mk.injEq] at h
    obtain ⟨h1, h2⟩ := h
    subst h1
    subst h2
    simp
  · cases h

/-- Counterexample to C8 as stated: with the default path confirmed and
directory creation failing persistently, the loop silently retries the
same path forever — the only prompt ever issued is the initial yes/no
confirmation, and the user is never re-prompted for a path. -/
theorem getBackupPath_create_policy_cex :
    getBackupPath envNoCreate 4 Trace.init
      = BPRes.fuelOut
          ⟨5, [(0, "Do you wish to proceed?")],
           [Msg.defaultPathShown ⟨true, ["out", "user@proton.me"]⟩,
            Msg.createDirFailed ⟨true, ["out"]⟩, Msg.createDirFailed ⟨true, ["out"]⟩,
            Msg.createDirFailed ⟨true, ["out"]⟩, Msg.createDirFailed ⟨true, ["out"]⟩],
           [], []⟩ ∧
    (∀ pr ∈ [((0 : Nat), "Do you wish to proceed?")], pr.2 ≠ "Export Path") :=
  ⟨by decide, by decide⟩

/-- C8 (amended): getBackupPath creates the target directory (recursively)
before returning it — every successfully returned path has been created;
on creation failure a flag-supplied path is fatal (getBackupPath returns
the empty-path failure and performBackup exits EXIT_FAILURE); an
interactively entered path leads to a re-prompt (every prompt-entry
iteration begins with an "Export Path" prompt); but a confirmed default
path is retried in place, without any re-prompt, until creation succeeds
or the process is stopped. -/
theorem getBackupPath_create_policy :
    (∀ (env : Env) (fuel : Nat) (pe fa ud fa2 ud2 : Bool) (bp p : Path) (tr tr1 : Trace),
       backupPathLoop env fuel pe fa ud bp tr = BPRes.ok p fa2 ud2 tr1 →
       p ∈ tr1.dirsCreated) ∧
    (∀ (env : Env) (fuel : Nat) (ud : Bool) (bp : Path) (tr : Trace),
       env.createOk tr.tick (resolveAgainst env.outputPath
           (if bp = Path.emptyP then env.outputPath else bp)) = false →
       backupPathLoop env (fuel + 1) false true ud bp tr
         = BPRes.fail (pushMsg (tickAdv tr) (Msg.createDirFailed
             (resolveAgainst env.outputPath
               (if bp = Path.emptyP then env.outputPath else bp))))) ∧
    (∀ (env : Env) (fuel : Nat) (tr tr1 : Trace),
       getBackupPath env fuel tr = BPRes.fail tr1 →
       performBackup env fuel tr = (OpResult.exit EXIT_FAILURE, tr1)) ∧
    (∀ (env : Env) (fuel : Nat) (fa ud : Bool) (bp : Path) (tr : Trace),
       ∃ rest, ((backupPathLoop env (fuel + 1) true fa ud bp tr).trace).prompts
         = tr.prompts ++ (tr.tick, "Export Path") :: rest) ∧
    (∀ (env : Env) (fuel : Nat) (ud : Bool) (bp p : Path) (tr tr1 : Trace),
       readPath env "Export Path" tr = (Outcome.ok p, tr1) →
       env.createOk tr1.tick (resolveAgainst env.outputPath p) = false →
       backupPathLoop env (fuel + 1) true false ud bp tr
         = backupPathLoop env fuel true false false (resolveAgainst env.outputPath p)
             (pushMsg (tickAdv tr1)
               (Msg.createDirFailed (resolveAgainst env.outputPath p)))) ∧
    (∀ (env : Env) (fuel : Nat) (ud : Bool) (bp : Path) (tr : Trace),
       env.createOk tr.tick (resolveAgainst env.outputPath
           (if bp = Path.emptyP then env.outputPath else bp)) = false →
       backupPathLoop env (fuel + 1) false false ud bp tr
         = backupPathLoop env fuel false false ud
             (resolveAgainst env.outputPath (if bp = Path.emptyP then env.outputPath else bp))
             (pushMsg (tickAdv tr) (Msg.createDirFailed (resolveAgainst env.outputPath
                (if bp = Path.emptyP then env.outputPath else bp)))) ∧
       (pushMsg (tickAdv tr) (Msg.createDirFailed (resolveAgainst env.outputPath
          (if bp = Path.emptyP then env.outputPath else bp)))).prompts = tr.prompts) := by
  refine ⟨?_, ?_, ?_, ?_, ?_, ?_⟩
  · intro env fuel
    induction fuel with
    | zero =>
      intro pe fa ud fa2 ud2 bp p tr tr1 h
      simp [backupPathLoop] at h
    | succ fuel ih =>
      intro pe fa ud fa2 ud2 bp p tr tr1 h
      simp only [backupPathLoop] at h
      by_cases hpe : pe = true
      · rw [if_pos hpe] at h
        rcases hr : readPath env "Export Path" tr with ⟨o, trA⟩
        simp only [hr] at h
        cases o with
        | exn e => cases h
        | ok pq =>
          rcases htc : tryCreate env pq trA with ⟨q, trB⟩ | ⟨q, trB⟩ <;>
            simp only [htc] at h
          · obtain ⟨h1, h2, h3, h4⟩ := BPRes.ok.inj h
            subst h1
            subst h4
            exact tryCreate_inl_dirs env pq trA _ _ htc
          · by_cases hfa : fa = true
            · rw [if_pos hfa] at h; cases h
            · have hfa' : fa = false := by simpa using hfa
              subst hfa'
              simp only [if_neg (by decide : ¬ (false = true))] at h
              exact ih pe false false fa2 ud2 q p trB tr1 h
      · rw [if_neg hpe] at h
        rcases htc : tryCreate env (if bp = Path.emptyP then env.outputPath else bp) tr
            with ⟨q, trB⟩ | ⟨q, trB⟩ <;> simp only [htc] at h
        · obtain ⟨h1, h2, h3, h4⟩ := BPRes.ok.inj h
          subst h1
          subst h4
          exact tryCreate_inl_dirs env _ tr _ _ htc
        · by_cases hfa : fa = true
          · rw [if_pos hfa] at h; cases h
          · have hfa' : fa = false := by simpa using hfa
            subst hfa'
            simp only [if_neg (by decide : ¬ (false = true))] at h
            exact ih pe false ud fa2 ud2 q p trB tr1 h
  · intro env fuel ud bp tr hc
    simp [backupPathLoop, tryCreate, hc, tickAdv]
  · intro env fuel tr tr1 hfail
    simp [performBackup, hfail]
  · intro env fuel fa ud bp tr
    exact backupPathLoop_prompt_first env fuel fa ud bp tr
  · intro env fuel ud bp p tr tr1 hr hc
    simp [backupPathLoop, hr, tryCreate, hc, tickAdv]
  · intro env fuel ud bp tr hc
    exact ⟨by simp [backupPathLoop, tryCreate, hc, tickAdv], by simp [pushMsg, tickAdv]⟩

/-- Witness for C8's amended statement at concrete environments: a
created-and-returned default path, a fatal flag-path failure mapped to
EXIT_FAILURE, and the silent in-place retry of a confirmed default. -/
theorem getBackupPath_create_policy_witness :
    ((⟨true, ["out"]⟩ : Path)
        ∈ (⟨2, [(0, "Do you wish to proceed?")],
            [Msg.defaultPathShown ⟨true, ["out", "user@proton.me"]⟩], [],
            [⟨true, ["out"]⟩]⟩ : Trace).dirsCreated) ∧
    performBackup { envNoCreate with argDir := some "d" } 1 Trace.init
      = (OpResult.exit EXIT_FAILURE,
         pushMsg (tickAdv Trace.init) (Msg.createDirFailed ⟨true, ["d"]⟩)) ∧
    backupPathLoop envNoCreate 1 false false true Path.emptyP (tickAdv Trace.init)
      = backupPathLoop envNoCreate 0 false false true ⟨true, ["out"]⟩
          (pushMsg (tickAdv (tickAdv Trace.init)) (Msg.createDirFailed ⟨true, ["out"]⟩)) := by
  refine ⟨?_, ?_, ?_⟩
  · exact getBackupPath_create_policy.1 envYes 1 false false true false true
      Path.emptyP ⟨true, ["out"]⟩
      ⟨1, [(0, "Do you wish to proceed?")],
       [Msg.defaultPathShown ⟨true, ["out", "user@proton.me"]⟩], [], []⟩
      ⟨2, [(0, "Do you wish to proceed?")],
       [Msg.defaultPathShown ⟨true, ["out", "user@proton.me"]⟩], [],
       [⟨true, ["out"]⟩]⟩ (by decide)
  · have h := getBackupPath_create_policy.2.2.1 { envNoCreate with argDir := some "d" }
      1 Trace.init (pushMsg (tickAdv Trace.init) (Msg.createDirFailed ⟨true, ["d"]⟩))
      (by decide)
    exact h
  · have h := (getBackupPath_create_policy.2.2.2.2.2 envNoCreate 0 true Path.emptyP
      (tickAdv Trace.init) (by decide)).1
    simpa using h

end PME
